import Mathlib

/-!
Verification of the IPRE recommendation pipeline.

This file gives a shallow embedding, in Lean 4, of the core algorithms of the
six-stage recommendation engine found under `src/scripts/`:

* `associations.py` — basket sessionization, the data-driven basket window and
  association-rule metrics (pair_freq / product_freq / confidence / support /
  weighted_support / lift) with its filtering and sanity assertions;
* `train_clustering.py` — the elbow method used to choose the cluster count;
* `ranking.py` — the composite scoring of association rules, the L3 affinity
  bonus, the in-stock filter, the category-aware fallback and the final
  per-customer ranking;
* `feedback.py` — feedback loading with the recency filter, weight resolution,
  calibration and the feedback summary;
* `inference.py` — `predict_fn`, the per-request inference entry point.

Numbers that the Python code manipulates as floats are modelled as rationals
(`ℚ`); dates and timestamps are modelled as integer day numbers (`ℤ`).
Identifier columns are strings.  Pandas data frames are modelled as lists of
records; `groupby`/`merge` operations are modelled by explicit filtering and
joining on key equality.  Python string operations (`.lower()`, `.strip()`,
lexicographic comparison) are modelled by character-level helpers below, since
all identifiers involved are plain ASCII.
-/

namespace IPRE

/-! ## String helpers (models of Python `str.lower`, `str.strip`, `<`) -/

/-- ASCII lower-casing of a single character, as Python `str.lower` acts on
the ASCII identifiers used throughout the pipeline. -/
def asciiLower (c : Char) : Char :=
  if 'A' ≤ c ∧ c ≤ 'Z' then Char.ofNat (c.toNat + 32) else c

/-- Model of Python `str.lower()` for the ASCII strings of this data set. -/
def lowerStr (s : String) : String := ⟨s.data.map asciiLower⟩

/-- Drop leading whitespace characters from a character list. -/
def dropLeadingWs : List Char → List Char
  | [] => []
  | c :: rest => if c.isWhitespace then dropLeadingWs rest else c :: rest

/-- Model of Python `str.strip()`: whitespace removed from both ends. -/
def stripStr (s : String) : String :=
  ⟨(dropLeadingWs (dropLeadingWs s.data).reverse).reverse⟩

/-- Lexicographic comparison of character lists by code point, as Python
compares strings. -/
def charListLe : List Char → List Char → Bool
  | [], _ => true
  | _ :: _, [] => false
  | a :: as, b :: bs => if a = b then charListLe as bs else decide (a.toNat ≤ b.toNat)

/-- Model of Python string `<=` (used by pandas when sorting group keys). -/
def strLe (a b : String) : Bool := charListLe a.data b.data

/-! ## Sorting helper -/

/-- Insert `x` in front of the first element `y` with `le x y = true`. -/
def insertSorted {α : Type} (le : α → α → Bool) (x : α) : List α → List α
  | [] => [x]
  | y :: ys => if le x y then x :: y :: ys else y :: insertSorted le x ys

/-- Stable insertion sort.  Models the sorts of the pipeline (pandas
`sort_values`, sorted groupby keys); all properties proved below are
insensitive to the order of ties, which pandas' default unstable sort leaves
unspecified anyway. -/
def sortB {α : Type} (le : α → α → Bool) : List α → List α
  | [] => []
  | x :: xs => insertSorted le x (sortB le xs)

/-! ## Numeric helpers -/

/-- Round-half-to-even, the semantics of Python's builtin `round` on floats
(`associations.py` uses `round(dataset_median)`, `ranking.py` uses
`round(per_order.median())`). -/
def roundHalfEven (x : ℚ) : ℤ :=
  let n := Int.floor x
  let frac := x - (n : ℚ)
  if frac < 1/2 then n
  else if 1/2 < frac then n + 1
  else if n % 2 = 0 then n else n + 1

/-- `round(x, d)` for `d` decimal digits, Python semantics. -/
def roundQ (x : ℚ) (d : ℕ) : ℚ :=
  (roundHalfEven (x * (10 ^ d : ℕ)) : ℚ) / (10 ^ d : ℕ)

/-- Median of a list of rationals, as `pandas.Series.median` computes it:
sort, take the middle element (odd length) or the mean of the two middle
elements (even length).  Call sites guarantee a non-empty list. -/
def medianQ (l : List ℚ) : ℚ :=
  let s := sortB (fun a b => decide (a ≤ b)) l
  if s.length % 2 = 1 then s.getD (s.length / 2) 0
  else (s.getD (s.length / 2 - 1) 0 + s.getD (s.length / 2) 0) / 2

/-- Mean of a list of rationals (`pandas.Series.mean`); call sites guarantee
a non-empty list. -/
def meanQ (l : List ℚ) : ℚ := l.sum / (l.length : ℚ)

/-- `numpy.clip(x, lo, hi)`. -/
def clipQ (x lo hi : ℚ) : ℚ := min (max x lo) hi

/-! ## S3 — association mining (`associations.py`)

An invoice line is a `(customer_id, invoice_date, product_id)` triple; the
invoice date is a day number. -/

structure Invoice where
  customer : String
  day : ℤ
  product : String
deriving DecidableEq

/-- One row of `customer_clusters.csv`. -/
structure ClusterRow where
  customer : String
  cluster : String
  segment : String
deriving DecidableEq

/-- A customer's invoices sorted by date
(`invoices.sort_values(["customer_id", "invoice_date"])` restricted to one
customer). -/
def sortedInvoicesFor (invs : List Invoice) (c : String) : List Invoice :=
  sortB (fun a b => decide (a.day ≤ b.day)) (invs.filter (fun i => i.customer = c))

/-- Basket sessionization scan (`associations.py` lines 201–205): walking a
customer's date-sorted invoices, a new basket starts on the first invoice
(`gap` is NaN) or when the gap to the previous invoice strictly exceeds the
window (`invoices["gap"] > window`).  `basket_id` is the running count of
new-basket flags, exactly pandas' `cumsum` of the boolean column. -/
def assignSessions (window : ℤ) : Option ℤ → ℕ → List Invoice → List (ℕ × Invoice)
  | _, _, [] => []
  | prev, idx, inv :: rest =>
    let isNew : Bool := match prev with
      | none => true
      | some d => decide (window < inv.day - d)
    let idx' := if isNew then idx + 1 else idx
    (idx', inv) :: assignSessions window (some inv.day) idx' rest

/-- Basket session index for every invoice of customer `c`. -/
def customerSessions (invs : List Invoice) (window : ℤ) (c : String) : List (ℕ × Invoice) :=
  assignSessions window none 0 (sortedInvoicesFor invs c)

/-- Number of distinct basket sessions of customer `c`. -/
def sessionCount (invs : List Invoice) (window : ℤ) (c : String) : ℕ :=
  ((customerSessions invs window c).map Prod.fst).dedup.length

/-- Consecutive inter-purchase gaps (in days) of one customer, duplicates of the
same day included — pandas computes the gap column on every invoice row. -/
def customerGaps (invs : List Invoice) (c : String) : List ℤ :=
  let days := (sortedInvoicesFor invs c).map (fun i => i.day)
  (days.zip days.tail).map (fun p => p.2 - p.1)

/-- `compute_basket_window` (`associations.py` lines 105–135): per-customer
median inter-purchase gap, dataset-wide median of those medians, rounded
half-to-even and clamped into `[7, 90]`; 30 when no gaps exist at all. -/
def compute_basket_window (invs : List Invoice) : ℤ :=
  let customers := (invs.map (fun i => i.customer)).dedup
  let allGaps := customers.flatMap (customerGaps invs)
  if allGaps.isEmpty then 30
  else
    let perCustomerMedian :=
      (customers.filter (fun c => !(customerGaps invs c).isEmpty)).map
        (fun c => medianQ ((customerGaps invs c).map (fun g => (g : ℚ))))
    let datasetMedian := medianQ perCustomerMedian
    max 7 (min (roundHalfEven datasetMedian) 90)

/-- One row of the sessionized, cluster-joined invoice frame `df`
(`associations.py` lines 225–231): the left join of invoices with the cluster
assignments, rows without a cluster dropped.  The pair `(customer, basket)`
plays the role of `global_basket_id`. -/
structure MinedRecord where
  segment : String
  cluster : String
  customer : String
  basket : ℕ
  product : String
deriving DecidableEq

/-- The joined frame: every (cluster-assignment row, sessionized invoice of
that customer) combination, exactly the rows the left join keeps after
`dropna(subset=["cluster_id"])`. -/
def minedRecords (invs : List Invoice) (cls : List ClusterRow) (window : ℤ) :
    List MinedRecord :=
  cls.flatMap (fun cr =>
    (customerSessions invs window cr.customer).map (fun p =>
      { segment := cr.segment, cluster := cr.cluster, customer := cr.customer,
        basket := p.1, product := p.2.product }))

/-- The distinct global baskets of a `(segment, cluster)` group
(`df.groupby(...)["global_basket_id"].nunique` enumerates these keys). -/
def basketKeys (recs : List MinedRecord) (seg cl : String) : List (String × ℕ) :=
  ((recs.filter (fun r => r.segment = seg ∧ r.cluster = cl)).map
    (fun r => (r.customer, r.basket))).dedup

/-- Does basket `key` of `(seg, cl)` contain product `p`? -/
def basketHasB (recs : List MinedRecord) (seg cl : String) (key : String × ℕ)
    (p : String) : Bool :=
  recs.any (fun r =>
    decide (r.segment = seg ∧ r.cluster = cl ∧ r.customer = key.1 ∧
      r.basket = key.2 ∧ r.product = p))

/-- `pair_freq`: count of distinct global baskets of the cluster containing
both products. -/
def pair_freq (recs : List MinedRecord) (seg cl a b : String) : ℕ :=
  ((basketKeys recs seg cl).filter
    (fun k => basketHasB recs seg cl k a && basketHasB recs seg cl k b)).length

/-- `product_freq`: count of distinct global baskets of the cluster containing
the product. -/
def product_freq (recs : List MinedRecord) (seg cl a : String) : ℕ :=
  ((basketKeys recs seg cl).filter (fun k => basketHasB recs seg cl k a)).length

/-- `total_baskets`: count of distinct global baskets of the cluster. -/
def total_baskets (recs : List MinedRecord) (seg cl : String) : ℕ :=
  (basketKeys recs seg cl).length

/-- `weighted_pair_freq`: decay-weighted count over the co-occurrence baskets.
The decay weight `w = exp(-DECAY_LAMBDA * age_days)` is transcendental, so the
per-basket weight is a parameter of the embedding. -/
def weighted_pair_freq (w : String × ℕ → ℚ) (recs : List MinedRecord)
    (seg cl a b : String) : ℚ :=
  (((basketKeys recs seg cl).filter
    (fun k => basketHasB recs seg cl k a && basketHasB recs seg cl k b)).map w).sum

/-- One output row of `associations.csv` (columns kept after the drops in
`associations.py` line 336). -/
structure AssocRow where
  segment : String
  cluster : String
  productA : String
  productB : String
  pairFreq : ℚ
  productFreq : ℚ
  confidence : ℚ
  support : ℚ
  weightedSupport : ℚ
  lift : ℚ
deriving DecidableEq

/-- The distinct `(segment, cluster, product_a, product_b)` keys produced by
the co-occurrence enumeration: every ordered pair of distinct products sharing
a basket (both directions are emitted, `associations.py` lines 253–255).
The enumeration order of pandas' sorted groupby keys is not reproduced; no
property below depends on row order. -/
def assocPairKeys (recs : List MinedRecord) : List (String × String × String × String) :=
  (recs.flatMap (fun r =>
    recs.flatMap (fun s =>
      if r.segment = s.segment ∧ r.cluster = s.cluster ∧ r.customer = s.customer ∧
          r.basket = s.basket ∧ r.product ≠ s.product
      then [(r.segment, r.cluster, r.product, s.product)] else []))).dedup

/-- Metric computation for one `(segment, cluster, product_a, product_b)` key
(`associations.py` lines 311–328): confidence, support, weighted support and
lift (lift's zero denominator maps to 0 via `replace(0, nan)`/`fillna(0)`,
then `round(4)`). -/
def mkAssocRow (w : String × ℕ → ℚ) (recs : List MinedRecord)
    (key : String × String × String × String) : AssocRow :=
  let seg := key.1
  let cl := key.2.1
  let a := key.2.2.1
  let b := key.2.2.2
  let pf : ℚ := (pair_freq recs seg cl a b : ℚ)
  let prodf : ℚ := (product_freq recs seg cl a : ℚ)
  let total : ℚ := (total_baskets recs seg cl : ℚ)
  let conf := pf / prodf
  let pB : ℚ := (product_freq recs seg cl b : ℚ) / total
  { segment := seg, cluster := cl, productA := a, productB := b,
    pairFreq := pf, productFreq := prodf,
    confidence := conf,
    support := pf / total,
    weightedSupport := weighted_pair_freq w recs seg cl a b / total,
    lift := if pB = 0 then 0 else roundQ (conf / pB) 4 }

/-- All metric rows (the `pair_counts` frame before filtering). -/
def assocMetricRows (w : String × ℕ → ℚ) (invs : List Invoice)
    (cls : List ClusterRow) (window : ℤ) : List AssocRow :=
  let recs := minedRecords invs cls window
  (assocPairKeys recs).map (mkAssocRow w recs)

/-- The sanity assertions of `associations.py` lines 331–334: fatal unless
`confidence ≤ 1.0 + 1e-9` and `support ≤ 1.0 + 1e-9` on every row. -/
def checkAssertions (rows : List AssocRow) : Except String (List AssocRow) :=
  if rows.all (fun r =>
      decide (r.confidence ≤ 1 + 1/1000000000) && decide (r.support ≤ 1 + 1/1000000000))
  then Except.ok rows
  else Except.error "confidence or support exceeds 1.0"

/-- Mining configuration (`MIN_LIFT`, `MIN_ABS_FREQ`, `MIN_FREQ_RATIO` with the
last name shortened). -/
structure AssocConfig where
  minLift : ℚ
  minAbsFreq : ℕ
  minFreqFrac : ℚ

/-- The adaptive frequency floor of one cluster (`associations.py` lines
344–351): `ceil(max(MIN_ABS_FREQ, total_baskets * MIN_FREQ_RATIO))` — pandas
clips below at `MIN_ABS_FREQ` first and applies `ceil` afterwards. -/
def min_freq (cfg : AssocConfig) (total : ℕ) : ℤ :=
  Int.ceil (max (cfg.minAbsFreq : ℚ) ((total : ℚ) * cfg.minFreqFrac))

/-- The emitted association rows: metric rows passing the frequency floor and
the lift filter (`associations.py` lines 353–361). -/
def assocEmittedRows (cfg : AssocConfig) (w : String × ℕ → ℚ) (invs : List Invoice)
    (cls : List ClusterRow) (window : ℤ) : List AssocRow :=
  let recs := minedRecords invs cls window
  ((assocPairKeys recs).map (mkAssocRow w recs)).filter
    (fun row =>
      decide ((min_freq cfg (total_baskets recs row.segment row.cluster) : ℚ) ≤ row.productFreq)
        && decide (cfg.minLift ≤ row.lift))

/-! ## S2 — elbow-based k selection (`train_clustering.py`) -/

/-- The elbow scan of `elbow_k` (`train_clustering.py` lines 211–222): walk the
inertia list; break (returning the maximum k attempted) on a zero previous
inertia; return the first k whose percentage drop is below the threshold;
return the maximum k attempted when no elbow is found.  The KMeans inertia at
each k is an oracle parameter `inertia : ℕ → ℚ`, since the numeric optimizer
itself is outside the embedding. -/
def elbowScan (fallbackK : ℕ) (threshold : ℚ) : ℚ → List (ℕ × ℚ) → ℕ
  | _, [] => fallbackK
  | prev, (k, cur) :: rest =>
    if prev = 0 then fallbackK
    else if (prev - cur) / prev * 100 < threshold then k
    else elbowScan fallbackK threshold cur rest

/-- `elbow_k` (`train_clustering.py` lines 179–222). -/
def elbow_k (inertia : ℕ → ℚ) (n maxK : ℕ) (threshold : ℚ) : ℕ :=
  if n < 4 then 1
  else if n < 6 then 2
  else
    let effMax := min maxK (n - 1)
    if effMax < 2 then 1
    else
      match (List.range' 2 (effMax - 1)).map (fun k => (k, inertia k)) with
      | [] => effMax
      | (_, i0) :: rest => elbowScan effMax threshold i0 rest

/-- Percentage inertia drop from `k-1` to `k`, the quantity the elbow test
compares against `ELBOW_THRESHOLD`. -/
def pctDrop (inertia : ℕ → ℚ) (k : ℕ) : ℚ :=
  (inertia (k - 1) - inertia k) / inertia (k - 1) * 100

/-! ## S4 — ranking (`ranking.py`) -/

/-- One row of `market_basket.csv`, restricted to the columns `ranking.py`
reads.  Optional columns (`l2_category`, `l3_category`, `in_stock`,
`weighted_support`, `lift` on the association side) have their presence
modelled by the flags in `RankingFlags`. -/
structure BasketRow where
  customer : String
  product : String
  l2 : String
  l3 : String
  purchaseFrequency : ℚ
  totalQuantity : ℚ
  recencyDays : ℚ
  inStock : String
  segment : String
deriving DecidableEq

/-- Which optional input columns are present. -/
structure RankingFlags where
  hasInStock : Bool
  hasL2 : Bool
  hasL3 : Bool
  hasWeightedSupport : Bool
  hasLift : Bool

/-- Ranking configuration (`ranking.py` lines 54–63; the four scoring weights
are taken after the import-time renormalisation). -/
structure RankConfig where
  minSupport : ℚ
  minConfidence : ℚ
  minLift : ℚ
  topK : ℕ
  wConf : ℚ
  wSupp : ℚ
  wLift : ℚ
  wRecency : ℚ
  maxLiftNormalise : ℚ
  l3TiebreakMargin : ℚ

/-- The default configuration values of `ranking.py`. -/
def defaultRankConfig : RankConfig :=
  { minSupport := 1/100, minConfidence := 1/20, minLift := 6/5, topK := 5,
    wConf := 45/100, wSupp := 20/100, wLift := 20/100, wRecency := 15/100,
    maxLiftNormalise := 5, l3TiebreakMargin := 1/50 }

/-- `normalise_lift` (`ranking.py` lines 169–176). -/
def normalise_lift (cfg : RankConfig) (lift : ℚ) : ℚ :=
  clipQ ((lift - 1) / (cfg.maxLiftNormalise - 1)) 0 1

/-- `score_rule` (`ranking.py` lines 179–189). -/
def score_rule (cfg : RankConfig) (confidence support lift recencyScore : ℚ) : ℚ :=
  cfg.wConf * clipQ confidence 0 1 +
  cfg.wSupp * clipQ support 0 1 +
  cfg.wLift * normalise_lift cfg lift +
  cfg.wRecency * clipQ recencyScore 0 1

/-- The in-stock product set (`ranking.py` lines 353–361): with an `in_stock`
column, the products whose value lower-cases to `true`/`1`/`yes`; without the
column, every product appearing in the basket. -/
def inStockIds (hasCol : Bool) (basket : List BasketRow) : List String :=
  if hasCol then
    ((basket.filter (fun r => lowerStr r.inStock ∈ ["true", "1", "yes"])).map
      (fun r => r.product)).dedup
  else (basket.map (fun r => r.product)).dedup

/-- `prod_l2` lookup (`ranking.py` lines 341–345): the `l2_category` of the
first basket row of the product, `"Unknown"` default used by the callers that
build recommendation rows. -/
def prodL2Get (hasL2 : Bool) (basket : List BasketRow) (p dflt : String) : String :=
  if hasL2 then
    match basket.find? (fun r => r.product = p) with
    | some r => r.l2
    | none => dflt
  else dflt

/-- `prod_l3` lookup (`ranking.py` lines 346–348). -/
def prodL3Get (hasL3 : Bool) (basket : List BasketRow) (p dflt : String) : String :=
  if hasL3 then
    match basket.find? (fun r => r.product = p) with
    | some r => r.l3
    | none => dflt
  else dflt

/-- Membership of an `l3_category` in the customer's L3 affinity dict built by
`build_customer_l3_affinity` (`ranking.py` lines 126–147): the dict's keys are
the L3 categories occurring among the customer's basket rows. -/
def custL3Mem (hasL3 : Bool) (basket : List BasketRow) (c l3 : String) : Bool :=
  hasL3 && basket.any (fun r => decide (r.customer = c ∧ r.l3 = l3))

/-- The proportion stored by `build_customer_l3_affinity` for one
`(customer, l3)` key: summed purchase frequency of the category over the
customer's total, a zero total replaced by 1. -/
def l3Share (basket : List BasketRow) (c l3 : String) : ℚ :=
  let num := ((basket.filter (fun r => r.customer = c ∧ r.l3 = l3)).map
    (fun r => r.purchaseFrequency)).sum
  let tot := ((basket.filter (fun r => r.customer = c)).map
    (fun r => r.purchaseFrequency)).sum
  num / (if tot = 0 then 1 else tot)

/-- `build_customer_l3_affinity` as a lookup: `cust_l3.get(l3)`. -/
def build_customer_l3_affinity (hasL3 : Bool) (basket : List BasketRow)
    (c l3 : String) : Option ℚ :=
  if custL3Mem hasL3 basket c l3 then some (l3Share basket c l3) else none

/-- The proportion stored by `build_l2_affinity` (`ranking.py` lines 150–166):
share of the customer's `total_quantity` in one L2 category. -/
def l2Share (basket : List BasketRow) (c l2 : String) : ℚ :=
  let num := ((basket.filter (fun r => r.customer = c ∧ r.l2 = l2)).map
    (fun r => r.totalQuantity)).sum
  let tot := ((basket.filter (fun r => r.customer = c)).map
    (fun r => r.totalQuantity)).sum
  num / (if tot = 0 then 1 else tot)

/-- Membership in the customer's L2 affinity dict. -/
def custL2Mem (basket : List BasketRow) (c l2 : String) : Bool :=
  basket.any (fun r => decide (r.customer = c ∧ r.l2 = l2))

/-- `cust_l2.get(key, 0.0)` used by the fallback's affinity score. -/
def l2AffinityGet (basket : List BasketRow) (c l2 : String) : ℚ :=
  if custL2Mem basket c l2 then l2Share basket c l2 else 0

/-- `build_quantity_lookup` (`ranking.py` lines 114–123) combined with the
`.get((cust, prod), 1)` default of the caller: median per-order quantity,
rounded half-to-even, floored at 1. -/
def qtyLookup (basket : List BasketRow) (c p : String) : ℤ :=
  let g := basket.filter (fun r => r.customer = c ∧ r.product = p)
  if g.isEmpty then 1
  else
    let perOrder := g.map (fun r =>
      r.totalQuantity / (if r.purchaseFrequency = 0 then 1 else r.purchaseFrequency))
    max 1 (roundHalfEven (medianQ perOrder))

/-- One recommendation row as assembled by `ranking.py` (the human-readable
`reason` string, pure presentation, is not modelled). -/
structure RecRow where
  customer : String
  product : String
  cluster : String
  segment : String
  l2 : String
  l3 : String
  trigger : String
  support : ℚ
  confidence : ℚ
  lift : ℚ
  score : ℚ
  qty : ℤ
deriving DecidableEq

/-- The basket joined with the cluster assignments (`ranking.py` lines
369–375): each basket row paired with each matching cluster id, rows without
a cluster dropped. -/
def dfRows (basket : List BasketRow) (cls : List ClusterRow) :
    List (BasketRow × String) :=
  basket.flatMap (fun b =>
    (cls.filter (fun c => c.customer = b.customer)).map (fun c => (b, c.cluster)))

/-- The customers of the joined frame in sorted order, as
`df.groupby("customer_id")` iterates them. -/
def sortedCustomers (df : List (BasketRow × String)) : List String :=
  sortB strLe ((df.map (fun r => r.1.customer)).dedup)

/-- The body of the per-rule loop (`ranking.py` lines 420–480): the skip
conditions, the composite score, the L3 affinity bonus and the assembled
recommendation row. -/
def processRule (cfg : RankConfig) (flags : RankingFlags) (basket : List BasketRow)
    (stockIds : List String) (cust : String) (bought : List String)
    (cluster segment : String) (recencyScore : ℚ) (r : AssocRow) : Option RecRow :=
  if r.productB ∈ bought then none
  else if r.productA ∉ bought then none
  else if r.productB ∉ stockIds then none
  else if r.support < cfg.minSupport then none
  else if r.confidence < cfg.minConfidence then none
  else if (if flags.hasLift then r.lift else 1) < cfg.minLift then none
  else
    let liftVal := if flags.hasLift then r.lift else 1
    let suppVal := if flags.hasWeightedSupport then r.weightedSupport else r.support
    let rawScore := score_rule cfg r.confidence suppVal liftVal recencyScore
    let recL3 := prodL3Get flags.hasL3 basket r.productB ""
    let l3Bonus : ℚ :=
      if recL3 ≠ "" ∧ custL3Mem flags.hasL3 basket cust recL3 then
        l3Share basket cust recL3 * cfg.l3TiebreakMargin
      else 0
    some { customer := cust, product := r.productB, cluster := cluster,
           segment := segment,
           l2 := prodL2Get flags.hasL2 basket r.productB "Unknown",
           l3 := prodL3Get flags.hasL3 basket r.productB "Unknown",
           trigger := r.productA, support := r.support,
           confidence := r.confidence, lift := liftVal,
           score := rawScore + l3Bonus, qty := qtyLookup basket cust r.productA }

/-- The association-based rows of one customer (one iteration of the main
recommendation loop, `ranking.py` lines 397–480). -/
def customerAssocRows (cfg : RankConfig) (flags : RankingFlags)
    (basket : List BasketRow) (df : List (BasketRow × String))
    (stockIds : List String) (assoc : List AssocRow) (cust : String) : List RecRow :=
  let custRows := df.filter (fun r => r.1.customer = cust)
  match custRows.head? with
  | none => []
  | some r0 =>
    let cluster := r0.2
    let segment := r0.1.segment
    let bought := custRows.map (fun r => r.1.product)
    let recencyScore := 1 / (1 + meanQ (custRows.map (fun r => r.1.recencyDays)))
    let rules := assoc.filter (fun a => a.cluster = cluster ∧ a.segment = segment)
    rules.filterMap
      (processRule cfg flags basket stockIds cust bought cluster segment recencyScore)

/-- All association-path rows, customers iterated in sorted order. -/
def assocPathRows (cfg : RankConfig) (flags : RankingFlags) (basket : List BasketRow)
    (cls : List ClusterRow) (assoc : List AssocRow) : List RecRow :=
  let df := dfRows basket cls
  let stockIds := inStockIds flags.hasInStock basket
  (sortedCustomers df).flatMap (customerAssocRows cfg flags basket df stockIds assoc)

/-- `df.head(n)` with pandas semantics: a negative `n` keeps all but the last
`|n|` rows. -/
def pandasHead {α : Type} (n : ℤ) (l : List α) : List α :=
  if 0 ≤ n then l.take n.toNat else l.take (l.length - n.natAbs)

/-- `category_aware_fallback` (`ranking.py` lines 196–302): for each uncovered
customer, candidates from the segment pool (in stock, not bought, not already
recommended) scored by L2 affinity, sorted by (affinity desc, segment
popularity desc) and truncated to the remaining slots.  pandas' unstable sort
leaves the order of full ties unspecified; a stable sort is used here. -/
def category_aware_fallback (cfg : RankConfig) (flags : RankingFlags)
    (df : List (BasketRow × String)) (basket : List BasketRow)
    (uncovered : List String) (stockIds : List String)
    (existingRecs : String → List String) : List RecRow :=
  uncovered.flatMap (fun cust =>
    let custRows := df.filter (fun r => r.1.customer = cust)
    match custRows.head? with
    | none => []
    | some r0 =>
      let segment := r0.1.segment
      let cluster := r0.2
      let bought := custRows.map (fun r => r.1.product)
      let already := existingRecs cust
      let pool0 := ((df.filter (fun r => r.1.segment = segment)).map
        (fun r => r.1.product)).dedup
      let pool := pool0.filter (fun p => p ∈ stockIds ∧ p ∉ bought ∧ p ∉ already)
      let popularity := fun p =>
        ((df.filter (fun r => r.1.segment = segment ∧ r.1.product = p)).map
          (fun r => r.1.purchaseFrequency)).sum
      let affinity := fun p => l2AffinityGet basket cust (prodL2Get flags.hasL2 basket p "")
      let sorted := sortB (fun p q =>
        decide (affinity q < affinity p ∨
          (affinity p = affinity q ∧ popularity q ≤ popularity p))) pool
      let cands := pandasHead ((cfg.topK : ℤ) - (already.length : ℤ)) sorted
      cands.map (fun p =>
        { customer := cust, product := p, cluster := cluster, segment := segment,
          l2 := prodL2Get flags.hasL2 basket p "Unknown",
          l3 := prodL3Get flags.hasL3 basket p "Unknown",
          trigger := "fallback", support := 0, confidence := 0, lift := 0,
          score := 1/10 + affinity p, qty := 1 }))

/-- `drop_duplicates(subset=["customer_id", "recommended_product"])`: keep the
first occurrence of each key. -/
def dedupByKeyAux (seen : List (String × String)) : List RecRow → List RecRow
  | [] => []
  | r :: rest =>
    if (r.customer, r.product) ∈ seen then dedupByKeyAux seen rest
    else r :: dedupByKeyAux ((r.customer, r.product) :: seen) rest

/-- Deduplication by `(customer, recommended_product)` keeping first rows. -/
def dedupByKey (l : List RecRow) : List RecRow := dedupByKeyAux [] l

/-- `groupby("customer_id")["score"].rank(ascending=False, method="first")`:
the rank of a row is one plus the number of rows of the same customer with a
strictly higher score, or an equal score and an earlier position. -/
def rankFirstDesc {α : Type} (cust : α → String) (score : α → ℚ) (rows : List α) :
    List (α × ℕ) :=
  let e := rows.enum
  e.map (fun x => (x.2, 1 + e.countP (fun y =>
    decide (cust y.2 = cust x.2 ∧
      (score x.2 < score y.2 ∨ (score y.2 = score x.2 ∧ y.1 < x.1))))))

/-- Rank within each customer and keep only ranks up to `K`
(`out[out["rank"] <= TOP_K]`). -/
def rankAndCap {α : Type} (cust : α → String) (score : α → ℚ) (rows : List α)
    (K : ℕ) : List (α × ℕ) :=
  (rankFirstDesc cust score rows).filter (fun p => decide (p.2 ≤ K))

/-- The recommendation frame of `ranking.py`'s `main` just before the final
ranking block: association path, first deduplication, category-aware fallback
for uncovered customers, top-up fallback and the final deduplication. -/
def rankingPreRank (cfg : RankConfig) (flags : RankingFlags) (basket : List BasketRow)
    (cls : List ClusterRow) (assoc : List AssocRow) : List RecRow :=
  let df := dfRows basket cls
  let stockIds := inStockIds flags.hasInStock basket
  let customers := sortedCustomers df
  let assocRaw := customers.flatMap (customerAssocRows cfg flags basket df stockIds assoc)
  let out0 := dedupByKey (sortB (fun a b => decide (b.score ≤ a.score)) assocRaw)
  let uncovered := customers.filter
    (fun c => (customerAssocRows cfg flags basket df stockIds assoc c).isEmpty)
  let existing0 := fun c =>
    ((out0.filter (fun r => r.customer = c)).map (fun r => r.product)).dedup
  let out1 := out0 ++
    category_aware_fallback cfg flags df basket uncovered stockIds existing0
  let outCusts := sortB strLe ((out1.map (fun r => r.customer)).dedup)
  let needsTopup := outCusts.filter
    (fun c => (out1.filter (fun r => r.customer = c)).length < cfg.topK)
  let existing1 := fun c =>
    ((out1.filter (fun r => r.customer = c)).map (fun r => r.product)).dedup
  let out2 := out1 ++
    category_aware_fallback cfg flags df basket needsTopup stockIds existing1
  dedupByKey (sortB (fun a b => decide (b.score ≤ a.score)) out2)

/-- The whole of `ranking.py`'s `main` after input loading: the pre-rank frame
above, then per-customer ranking, the TOP_K cap and the final sort by
`(customer_id, rank)`. -/
def ranking_main (cfg : RankConfig) (flags : RankingFlags) (basket : List BasketRow)
    (cls : List ClusterRow) (assoc : List AssocRow) : List (RecRow × ℕ) :=
  sortB (fun a b =>
    if a.1.customer = b.1.customer then decide (a.2 ≤ b.2)
    else strLe a.1.customer b.1.customer)
    (rankAndCap (fun r : RecRow => r.customer) (fun r => r.score)
      (rankingPreRank cfg flags basket cls assoc) cfg.topK)

/-! ## S5 — feedback calibration (`feedback.py`) -/

/-- One feedback row.  `feedbackDate` models the column after
`pd.to_datetime(..., errors="coerce")`: `none` is `NaT`, i.e. a missing or
unparseable date. -/
structure FeedbackRow where
  customer : String
  product : String
  rating : Option String
  reasonCode : Option String
  sentiment : Option String
  feedbackDate : Option ℤ
deriving DecidableEq

/-- Feedback configuration (`feedback.py` lines 62–68). -/
structure FeedbackConfig where
  weightHigh : ℚ
  weightMedPos : ℚ
  weightMedNeg : ℚ
  weightLow : ℚ
  scoreCutoff : ℚ
  topK : ℕ
  recencyDays : ℤ

/-- The default configuration values of `feedback.py`. -/
def defaultFeedbackConfig : FeedbackConfig :=
  { weightHigh := 13/10, weightMedPos := 1, weightMedNeg := 2/5,
    weightLow := 1/10, scoreCutoff := 2/25, topK := 5, recencyDays := 365 }

/-- `NEGATIVE_REASON_CODES` (`feedback.py` lines 74–78). -/
def negativeReasonCodes : List String :=
  ["not_relevant", "wrong_category", "already_have_contract",
   "customer_not_interested", "price_too_high", "out_of_territory",
   "competitor_product", "not_applicable", "poor_quality_signal"]

/-- `POSITIVE_REASON_CODES` (`feedback.py` lines 81–84). -/
def positiveReasonCodes : List String :=
  ["good_fit", "high_potential", "customer_interested",
   "complements_existing", "strong_affinity", "recommended_and_sold"]

/-- `str(x).strip().lower() if pd.notna(x) else ""` — the field normalisation
at the top of `resolve_weight`. -/
def normField : Option String → String
  | none => ""
  | some s => lowerStr (stripStr s)

/-- `resolve_weight` (`feedback.py` lines 138–177). -/
def resolve_weight (cfg : FeedbackConfig)
    (rating reasonCode sentiment : Option String) : ℚ :=
  let r := normField rating
  let reason := normField reasonCode
  let sent := normField sentiment
  if r = "high" then cfg.weightHigh
  else if r = "low" then cfg.weightLow
  else if r = "medium" then
    if sent = "positive" then cfg.weightMedPos
    else if sent = "negative" then cfg.weightMedNeg
    else if reason ∈ negativeReasonCodes then cfg.weightMedNeg
    else if reason ∈ positiveReasonCodes then cfg.weightMedPos
    else cfg.weightMedPos
  else 1

/-- The resolved weight of one feedback row: an absent `reason_code` or
`sentiment` column contributes the empty string, exactly like a missing
value. -/
def rowWeight (cfg : FeedbackConfig) (hasReason hasSentiment : Bool)
    (r : FeedbackRow) : ℚ :=
  resolve_weight cfg r.rating (if hasReason then r.reasonCode else none)
    (if hasSentiment then r.sentiment else none)

/-- `load_feedback` (`feedback.py` lines 91–131) after the S3 fetch: `none`
input models a missing/unreadable feedback file.  With a `feedback_date`
column, rows are kept when the date is `NaT` or at least
`now - FEEDBACK_RECENCY_DAYS`; an empty frame at any point yields `none`
(calibration skipped).  `now` is the wall-clock `pd.Timestamp.now()`. -/
def load_feedback (cfg : FeedbackConfig) (now : ℤ)
    (file : Option (List FeedbackRow)) (hasDateCol : Bool) :
    Option (List FeedbackRow) :=
  match file with
  | none => none
  | some rows =>
    if rows.isEmpty then none
    else
      let kept := if hasDateCol then
          rows.filter (fun r =>
            match r.feedbackDate with
            | none => true
            | some d => decide (now - cfg.recencyDays ≤ d))
        else rows
      if kept.isEmpty then none else some kept

/-- Descending order on feedback dates with `NaT` last, the order of
`sort_values("feedback_date", ascending=False)`. -/
def fbDateDescLe (a b : FeedbackRow) : Bool :=
  match a.feedbackDate, b.feedbackDate with
  | some x, some y => decide (y ≤ x)
  | some _, none => true
  | none, some _ => false
  | none, none => true

/-- `drop_duplicates(subset=["customer_id", "product_id"])` keeping first. -/
def dedupFeedbackAux (seen : List (String × String)) :
    List FeedbackRow → List FeedbackRow
  | [] => []
  | r :: rest =>
    if (r.customer, r.product) ∈ seen then dedupFeedbackAux seen rest
    else r :: dedupFeedbackAux ((r.customer, r.product) :: seen) rest

/-- Feedback deduplication (`feedback.py` lines 344–351): with a date column,
most recent feedback per `(customer, product)` wins. -/
def dedupFeedback (hasDateCol : Bool) (rows : List FeedbackRow) : List FeedbackRow :=
  dedupFeedbackAux [] (if hasDateCol then sortB fbDateDescLe rows else rows)

/-- `apply_calibration` (`feedback.py` lines 318–387): join resolved weights
onto the recommendations (1.0 when unmatched), multiply scores, drop rows
below `SCORE_CUTOFF`, re-rank per customer and re-apply the `TOP_K` cap.  The
input carries the rank column produced by S4, which is discarded and
recomputed. -/
def apply_calibration (cfg : FeedbackConfig) (hasDateCol hasReason hasSentiment : Bool)
    (reco : List (RecRow × ℕ)) (fb : List FeedbackRow) : List (RecRow × ℕ) :=
  let fbD := dedupFeedback hasDateCol fb
  let weightFor := fun (rr : RecRow) =>
    match fbD.find? (fun f => decide (f.customer = rr.customer ∧ f.product = rr.product)) with
    | some f => rowWeight cfg hasReason hasSentiment f
    | none => 1
  let adjusted := reco.map (fun p => { p.1 with score := p.1.score * weightFor p.1 })
  let kept := adjusted.filter (fun rr => decide (cfg.scoreCutoff ≤ rr.score))
  rankAndCap (fun r : RecRow => r.customer) (fun r => r.score) kept cfg.topK

/-- The `overall` block of the feedback summary. -/
structure SummaryOverall where
  acceptanceRate : ℚ
  highRate : ℚ
  mediumPositiveRate : ℚ
  mediumNegativeRate : ℚ
  lowRate : ℚ
deriving DecidableEq

/-- `feedback_summary.json` (`build_feedback_summary`, `feedback.py` lines
184–311).  `generatedAt` models the `datetime.utcnow().isoformat()` timestamp
embedded in the JSON.  The free-text `rationale` string is not modelled. -/
structure FeedbackSummary where
  generatedAt : ℤ
  totalFeedbackRows : ℕ
  overall : SummaryOverall
  bySegment : List (String × ℕ × ℚ)
  byL2 : List (String × ℕ × ℚ)
  reasonCodeDistribution : List (String × ℕ)
  suggestedMinConfidence : ℚ
  suggestedScoreCutoff : ℚ
deriving DecidableEq

/-- `rate(condition)` inside `build_feedback_summary`: share of rows
satisfying the condition, rounded to 4 decimals; 0 on an empty frame. -/
def summaryRate (total : ℕ) (count : ℕ) : ℚ :=
  if 0 < total then roundQ ((count : ℚ) / (total : ℚ)) 4 else 0

/-- The per-group acceptance blocks (`by_segment`, `by_l2_category`): each
feedback row is left-joined with the recommendation carrying its
`(customer, product)` key, groups of the joined key are listed in sorted
order, with group size and mean acceptance rounded to 4 decimals. -/
def summaryByKey (cfg : FeedbackConfig) (hasReason hasSentiment : Bool)
    (fb : List FeedbackRow) (reco : List (RecRow × ℕ)) (key : RecRow → String) :
    List (String × ℕ × ℚ) :=
  let joined := fb.flatMap (fun f =>
    match reco.filter (fun p => p.1.customer = f.customer ∧ p.1.product = f.product) with
    | [] => ([] : List (FeedbackRow × String))
    | l => l.map (fun p => (f, key p.1)))
  let keys := sortB strLe ((joined.map (fun j => j.2)).dedup)
  keys.map (fun k =>
    let grp := joined.filter (fun j => j.2 = k)
    let accepted := grp.countP (fun j =>
      decide (cfg.weightMedPos ≤ rowWeight cfg hasReason hasSentiment j.1))
    (k, grp.length, roundQ ((accepted : ℚ) / (grp.length : ℚ)) 4))

/-- `value_counts` of the fill-na'd reason codes: distinct values in first
occurrence order, sorted by count descending. -/
def reasonDistribution (fb : List FeedbackRow) : List (String × ℕ) :=
  let vals := fb.map (fun f => match f.reasonCode with
    | none => "not_provided"
    | some s => s)
  sortB (fun a b => decide (b.2 ≤ a.2))
    ((vals.dedup).map (fun v => (v, vals.countP (fun x => decide (x = v)))))

/-- `build_feedback_summary` (`feedback.py` lines 184–311). -/
def build_feedback_summary (cfg : FeedbackConfig) (hasReason hasSentiment : Bool)
    (now : ℤ) (fb : List FeedbackRow) (reco : List (RecRow × ℕ)) : FeedbackSummary :=
  let total := fb.length
  let weights := fb.map (rowWeight cfg hasReason hasSentiment)
  let lowerRating := fun (r : FeedbackRow) => match r.rating with
    | none => ""
    | some s => lowerStr s
  let acceptance := summaryRate total (weights.countP (fun w => decide (cfg.weightMedPos ≤ w)))
  let suggestions : ℚ × ℚ :=
    if acceptance < 1/2 then
      (roundQ (min (1/5) (1/20 + (1/2 - acceptance) * 3/10)) 3,
       roundQ (min (1/5) (cfg.scoreCutoff + 1/50)) 3)
    else if 4/5 < acceptance then
      (roundQ (max (1/50) (1/20 - (acceptance - 4/5) * 1/10)) 3,
       roundQ (max (1/25) (cfg.scoreCutoff - 1/100)) 3)
    else (1/20, cfg.scoreCutoff)
  { generatedAt := now,
    totalFeedbackRows := total,
    overall :=
      { acceptanceRate := acceptance,
        highRate := summaryRate total (fb.countP (fun r => decide (lowerRating r = "high"))),
        mediumPositiveRate := summaryRate total (weights.countP (fun w => decide (w = cfg.weightMedPos))),
        mediumNegativeRate := summaryRate total (weights.countP (fun w => decide (w = cfg.weightMedNeg))),
        lowRate := summaryRate total (fb.countP (fun r => decide (lowerRating r = "low"))) },
    bySegment := summaryByKey cfg hasReason hasSentiment fb reco (fun r => r.segment),
    byL2 := summaryByKey cfg hasReason hasSentiment fb reco (fun r => r.l2),
    reasonCodeDistribution := if hasReason then reasonDistribution fb else [],
    suggestedMinConfidence := suggestions.1,
    suggestedScoreCutoff := suggestions.2 }

/-- `feedback.py`'s `main` after input loading: load feedback (recency filter
against the wall clock `now`), pass recommendations through unchanged with no
summary when none remains, otherwise build the summary from the raw feedback
and publish the calibrated recommendations. -/
def s5_main (cfg : FeedbackConfig) (hasDateCol hasReason hasSentiment : Bool)
    (reco : List (RecRow × ℕ)) (file : Option (List FeedbackRow)) (now : ℤ) :
    List (RecRow × ℕ) × Option FeedbackSummary :=
  match load_feedback cfg now file hasDateCol with
  | none => (reco, none)
  | some fb =>
    (apply_calibration cfg hasDateCol hasReason hasSentiment reco fb,
     some (build_feedback_summary cfg hasReason hasSentiment now fb reco))

/-! ## S6 — inference (`inference.py`) -/

/-- A parsed inference request: `customer_id`, optional `segment`, optional
`purchase_vector` (a feature-name → quantity map).  `none` models an absent
key. -/
structure InferRequest where
  customerId : Option String
  segment : Option String
  purchaseVector : Option (List (String × ℚ))

/-- One per-segment model entry of the registry: the ordered feature columns
and the (abstract) scaler and KMeans predictors. -/
structure SegModel where
  featureCols : List String
  scalerTransform : List ℚ → List ℚ
  kmeansPredict : List ℚ → ℤ

/-- The model dict assembled by `model_fn`. -/
structure InferModel where
  models : List (String × SegModel)
  recoDf : List (RecRow × ℕ)

/-- A `predict_fn` response (the structured payloads of `inference.py`; the
per-recommendation dicts are modelled as
`(rank, product_id, trigger_product, score, recommended_qty)` tuples). -/
inductive InferResponse where
  | precomputed (customerId segment clusterId : String)
      (recommendations : List (ℕ × String × String × ℚ × ℤ))
  | realtimeAssignment (customerId segment clusterId : String)
  | errorPayload (customerId : String) (segment : Option String) (message : String)
deriving DecidableEq

/-- `predict_fn` (`inference.py` lines 107–186).  `Except.error` models a
raised `ValueError`; `Except.ok` wraps the structured response payloads. -/
def predict_fn (req : InferRequest) (model : InferModel) : Except String InferResponse :=
  let cid := stripStr (req.customerId.getD "")
  let seg := stripStr (req.segment.getD "")
  if cid = "" then Except.error "Request must include customer_id"
  else
    let custRecs := model.recoDf.filter (fun r => r.1.customer = cid)
    if !model.recoDf.isEmpty && !custRecs.isEmpty then
      let sortedRecs := sortB (fun a b => decide (a.2 ≤ b.2)) custRecs
      Except.ok (InferResponse.precomputed cid
        (((custRecs.head?).map (fun r => r.1.segment)).getD "")
        (((custRecs.head?).map (fun r => r.1.cluster)).getD "")
        (sortedRecs.map (fun r => (r.2, r.1.product, r.1.trigger, r.1.score, r.1.qty))))
    else if seg = "" then
      Except.ok (InferResponse.errorPayload cid none
        "Customer not found in precomputed recommendations. Provide segment and purchase_vector for real-time assignment.")
    else if (req.purchaseVector.getD []).isEmpty then
      Except.ok (InferResponse.errorPayload cid (some seg)
        "Provide purchase_vector for real-time cluster assignment.")
    else
      match model.models.find? (fun m => m.1 = seg) with
      | none =>
        Except.ok (InferResponse.errorPayload cid (some seg)
          "No trained model for segment.")
      | some m =>
        let pv := req.purchaseVector.getD []
        let vector := m.2.featureCols.map (fun col =>
          (((pv.find? (fun e => e.1 = col)).map (fun e => e.2)).getD 0))
        let label := m.2.kmeansPredict (m.2.scalerTransform vector)
        Except.ok (InferResponse.realtimeAssignment cid seg (seg ++ "_" ++ toString label))

/-- Zero out the `pair_freq` and `product_freq` columns of an associations
row, leaving every other column unchanged.  Used to state that the ranking
stage never reads those two columns. -/
def stripFreq (r : AssocRow) : AssocRow :=
  { r with pairFreq := 0, productFreq := 0 }

/-! ## Concrete example data used by witnesses and counterexamples -/

/-- The basket-window scenario: customer `C` with invoices on days 1, 40, 80,
one product each. -/
def c2Invoices : List Invoice :=
  [{ customer := "C", day := 1, product := "P1" },
   { customer := "C", day := 40, product := "P2" },
   { customer := "C", day := 80, product := "P3" }]

/-- A two-invoice, two-product basket for one clustered customer. -/
def ex1Invoices : List Invoice :=
  [{ customer := "c1", day := 0, product := "x" },
   { customer := "c1", day := 0, product := "y" }]

/-- Cluster assignment for `ex1Invoices`. -/
def ex1Clusters : List ClusterRow :=
  [{ customer := "c1", cluster := "k0", segment := "s" }]

/-- A permissive mining configuration (all filters disabled). -/
def assocCfg0 : AssocConfig := { minLift := 0, minAbsFreq := 0, minFreqFrac := 0 }

/-- A concrete inertia oracle: 100 at k = 2, 95 afterwards (a 5 % drop). -/
def exInertia : ℕ → ℚ := fun k => if k = 2 then 100 else 95

/-- Market basket for the ranking examples: customer `c1` owns product `A`
(category L2A/L3A, in stock), customer `c2` owns product `B` (category
L2B/L3B, out of stock per its `in_stock` value). -/
def exBasket : List BasketRow :=
  [{ customer := "c1", product := "A", l2 := "L2A", l3 := "L3A",
     purchaseFrequency := 1, totalQuantity := 1, recencyDays := 0,
     inStock := "true", segment := "s" },
   { customer := "c2", product := "B", l2 := "L2B", l3 := "L3B",
     purchaseFrequency := 1, totalQuantity := 1, recencyDays := 0,
     inStock := "false", segment := "s" }]

/-- Like `exBasket` but with product `B` in stock. -/
def exBasketInStock : List BasketRow :=
  [{ customer := "c1", product := "A", l2 := "L2A", l3 := "L3A",
     purchaseFrequency := 1, totalQuantity := 1, recencyDays := 0,
     inStock := "true", segment := "s" },
   { customer := "c2", product := "B", l2 := "L2B", l3 := "L3B",
     purchaseFrequency := 1, totalQuantity := 1, recencyDays := 0,
     inStock := "true", segment := "s" }]

/-- Cluster assignment for the ranking examples: only `c1` is clustered, so
the recommendation loop runs for `c1` alone. -/
def exRankClusters : List ClusterRow :=
  [{ customer := "c1", cluster := "k0", segment := "s" }]

/-- All optional columns present. -/
def allFlags : RankingFlags :=
  { hasInStock := true, hasL2 := true, hasL3 := true,
    hasWeightedSupport := true, hasLift := true }

/-- Optional columns present except `in_stock`. -/
def noStockFlags : RankingFlags :=
  { hasInStock := false, hasL2 := true, hasL3 := true,
    hasWeightedSupport := true, hasLift := true }

/-- A fabricated associations row violating `pair_freq ≤ product_freq`
(pair_freq 5 > product_freq 3) but passing every ranking threshold. -/
def exBadRow : AssocRow :=
  { segment := "s", cluster := "k0", productA := "A", productB := "B",
    pairFreq := 5, productFreq := 3, confidence := 9/10, support := 1/2,
    weightedSupport := 1/2, lift := 2 }

/-- An associations input consisting of the fabricated row alone. -/
def exBadAssoc : List AssocRow := [exBadRow]

/-- The fabricated row with different (equally impossible) frequency columns
(pair_freq 2, product_freq 7). -/
def exBadRow2 : AssocRow :=
  { segment := "s", cluster := "k0", productA := "A", productB := "B",
    pairFreq := 2, productFreq := 7, confidence := 9/10, support := 1/2,
    weightedSupport := 1/2, lift := 2 }

/-- An associations input consisting of the second fabricated row alone. -/
def exBadAssoc2 : List AssocRow := [exBadRow2]

/-- Basket for the L3-bonus example: `c1` owns `A` (L3A); the segment also
holds `B` (L3B, outside `c1`'s history) and `C` (L3A, inside it). -/
def c4Basket : List BasketRow :=
  [{ customer := "c1", product := "A", l2 := "L2A", l3 := "L3A",
     purchaseFrequency := 1, totalQuantity := 1, recencyDays := 0,
     inStock := "true", segment := "s" },
   { customer := "c2", product := "B", l2 := "L2B", l3 := "L3B",
     purchaseFrequency := 1, totalQuantity := 1, recencyDays := 0,
     inStock := "true", segment := "s" },
   { customer := "c2", product := "C", l2 := "L2A", l3 := "L3A",
     purchaseFrequency := 1, totalQuantity := 1, recencyDays := 0,
     inStock := "true", segment := "s" }]

/-- A qualifying rule recommending `C` (whose L3 is in `c1`'s history). -/
def c4Rule : AssocRow :=
  { segment := "s", cluster := "k0", productA := "A", productB := "C",
    pairFreq := 1, productFreq := 1, confidence := 1/2, support := 1/2,
    weightedSupport := 1/2, lift := 2 }

/-- A qualifying rule recommending `B` (whose L3 is outside `c1`'s history). -/
def c4RuleB : AssocRow :=
  { segment := "s", cluster := "k0", productA := "A", productB := "B",
    pairFreq := 1, productFreq := 1, confidence := 1/2, support := 1/2,
    weightedSupport := 1/2, lift := 2 }

/-- The recommendation row the ranker derives from the fabricated
`exBadAssoc` rule on `exBasketInStock` (composite score
0.45·0.9 + 0.20·0.5 + 0.20·0.25 + 0.15·1 = 141/200). -/
def exRecB : RecRow :=
  { customer := "c1", product := "B", cluster := "k0", segment := "s",
    l2 := "L2B", l3 := "L3B", trigger := "A", support := 1/2,
    confidence := 9/10, lift := 2, score := 141/200, qty := 1 }

/-- Cluster assignments with both `c1` and `c2` clustered (so `B` appears in
the fallback pool of segment `s`). -/
def c9Clusters : List ClusterRow :=
  [{ customer := "c1", cluster := "k0", segment := "s" },
   { customer := "c2", cluster := "k0", segment := "s" }]

/-- The fallback row recommending the out-of-stock product `B` to `c1`
(affinity 0, score 0.1). -/
def c9FallRow : RecRow :=
  { customer := "c1", product := "B", cluster := "k0", segment := "s",
    l2 := "L2B", l3 := "L3B", trigger := "fallback", support := 0,
    confidence := 0, lift := 0, score := 1/10, qty := 1 }

/-- One recommendation row with score 1/2 for the feedback examples. -/
def c7Rec : RecRow :=
  { customer := "c1", product := "p1", cluster := "k0", segment := "s",
    l2 := "L2A", l3 := "L3A", trigger := "t", support := 0, confidence := 0,
    lift := 0, score := 1/2, qty := 1 }

/-- The S5 input recommendations for the feedback examples. -/
def c7Reco : List (RecRow × ℕ) := [(c7Rec, 1)]

/-- One Low-rated feedback row dated day 0. -/
def c7Feedback : List FeedbackRow :=
  [{ customer := "c1", product := "p1", rating := some "Low",
     reasonCode := none, sentiment := none, feedbackDate := some 0 }]

/-- One feedback row dated day 50 (inside the recency window at both day 60
and day 70). -/
def c7bFeedback : List FeedbackRow :=
  [{ customer := "c1", product := "p1", rating := some "High",
     reasonCode := none, sentiment := none, feedbackDate := some 50 }]

/-! ## C2 — basket window adaptivity -/

/-- C2, counterexample.  On invoices at days 1, 40, 80 with `WINDOW_DAYS = 0`,
the data-driven window is indeed 40 days (the gaps are 39 and 40; their median
39.5 rounds half-to-even to 40, inside the clamp [7, 90]) — but both gaps are
then at most the window, so the three invoices form ONE basket session, not
the two sessions the claim states. -/
theorem c2_counterexample :
    compute_basket_window c2Invoices = 40 ∧
    sessionCount c2Invoices (compute_basket_window c2Invoices) "C" = 1 ∧
    sessionCount c2Invoices (compute_basket_window c2Invoices) "C" ≠ 2 := by
  have hw : compute_basket_window c2Invoices = 40 := by
    norm_num [compute_basket_window, customerGaps, sortedInvoicesFor, sortB, insertSorted,
      medianQ, roundHalfEven, c2Invoices]
  refine ⟨hw, ?_, ?_⟩ <;> rw [hw] <;> decide

/-- C2, amended.  With `WINDOW_DAYS = 0` and invoices on days 1, 40, 80 the
window evaluates to 40; no invoice after the first starts a new basket — in
particular the day-80 invoice, whose gap (40) equals the window, stays in the
same basket — so all three invoices carry basket index 1 and the customer has
exactly one basket session. -/
theorem c2_amended :
    compute_basket_window c2Invoices = 40 ∧
    (customerSessions c2Invoices 40 "C").map Prod.fst = [1, 1, 1] ∧
    sessionCount c2Invoices 40 "C" = 1 := by
  refine ⟨?_, by decide, by decide⟩
  norm_num [compute_basket_window, customerGaps, sortedInvoicesFor, sortB, insertSorted,
    medianQ, roundHalfEven, c2Invoices]

/-! ## C6 — inference error handling -/

/-- C6, counterexample.  A request with an empty `customer_id` does not get a
structured error payload: `predict_fn` raises (`Except.error` models the
`raise ValueError`). -/
theorem c6_counterexample :
    predict_fn { customerId := some "", segment := none, purchaseVector := none }
      { models := [], recoDf := [] } =
      Except.error "Request must include customer_id" := rfl

/-- C6, amended.  For a customer absent from the precomputed table: a missing
segment, a missing/empty purchase vector, and an unknown segment each return a
structured error payload (`Except.ok (errorPayload ...)`); an empty (or
all-whitespace) customer id instead raises a `ValueError`
(`Except.error`). -/
theorem c6_amended (req : InferRequest) (model : InferModel) :
    (stripStr (req.customerId.getD "") = "" →
      predict_fn req model = Except.error "Request must include customer_id") ∧
    (stripStr (req.customerId.getD "") ≠ "" →
     (model.recoDf.filter
        (fun r => r.1.customer = stripStr (req.customerId.getD ""))).isEmpty = true →
      ((stripStr (req.segment.getD "") = "" →
        predict_fn req model = Except.ok (InferResponse.errorPayload
          (stripStr (req.customerId.getD "")) none
          "Customer not found in precomputed recommendations. Provide segment and purchase_vector for real-time assignment.")) ∧
       (stripStr (req.segment.getD "") ≠ "" → (req.purchaseVector.getD []).isEmpty = true →
        predict_fn req model = Except.ok (InferResponse.errorPayload
          (stripStr (req.customerId.getD "")) (some (stripStr (req.segment.getD "")))
          "Provide purchase_vector for real-time cluster assignment.")) ∧
       (stripStr (req.segment.getD "") ≠ "" → (req.purchaseVector.getD []).isEmpty = false →
        model.models.find? (fun m => m.1 = stripStr (req.segment.getD "")) = none →
        predict_fn req model = Except.ok (InferResponse.errorPayload
          (stripStr (req.customerId.getD "")) (some (stripStr (req.segment.getD "")))
          "No trained model for segment.")))) := by
  constructor
  · intro h
    simp [predict_fn, h]
  · intro hcid hmiss
    refine ⟨?_, ?_, ?_⟩
    · intro hseg
      simp [predict_fn, hcid, hmiss, hseg]
    · intro hseg hpv
      simp [predict_fn, hcid, hmiss, hseg, hpv]
    · intro hseg hpv hfind
      simp [predict_fn, hcid, hmiss, hseg, hpv, hfind]

/-- C6, witness for the amended theorem at a concrete request. -/
theorem c6_amended_witness :
    (stripStr ((some "c9" : Option String).getD "") ≠ "" ∧
     (([] : List (RecRow × ℕ)).filter
        (fun r => r.1.customer = stripStr ((some "c9" : Option String).getD ""))).isEmpty = true ∧
     stripStr ((none : Option String).getD "") = "") ∧
    predict_fn { customerId := some "c9", segment := none, purchaseVector := none }
      { models := [], recoDf := [] } =
      Except.ok (InferResponse.errorPayload "c9" none
        "Customer not found in precomputed recommendations. Provide segment and purchase_vector for real-time assignment.") := by
  refine ⟨⟨by decide, by decide, by decide⟩, ?_⟩
  exact ((c6_amended { customerId := some "c9", segment := none, purchaseVector := none }
    { models := [], recoDf := [] }).2 (by decide) (by decide)).1 (by decide)

/-! ## C10 — feedback recency filter -/

/-- C10.  In `load_feedback`'s recency filter a feedback row with a missing or
unparseable `feedback_date` (`NaT`) is retained; a row is dropped exactly when
its date parses and is more than `FEEDBACK_RECENCY_DAYS` before the current
wall-clock time. -/
theorem c10_recency_filter (cfg : FeedbackConfig) (now : ℤ)
    (rows : List FeedbackRow) (r : FeedbackRow) (hr : r ∈ rows) :
    (∃ kept, load_feedback cfg now (some rows) true = some kept ∧ r ∈ kept) ↔
      (r.feedbackDate = none ∨
        ∃ d, r.feedbackDate = some d ∧ now - cfg.recencyDays ≤ d) := by
  have hne : rows.isEmpty = false := by
    cases rows with
    | nil => cases hr
    | cons a t => rfl
  have hpred : ∀ s : FeedbackRow,
      ((match s.feedbackDate with
        | none => true
        | some d => decide (now - cfg.recencyDays ≤ d)) = true) ↔
      (s.feedbackDate = none ∨ ∃ d, s.feedbackDate = some d ∧ now - cfg.recencyDays ≤ d) := by
    intro s
    cases hd : s.feedbackDate with
    | none => simp
    | some d => simp
  have hload : load_feedback cfg now (some rows) true =
      if rows.isEmpty then none
      else if (rows.filter (fun r =>
          match r.feedbackDate with
          | none => true
          | some d => decide (now - cfg.recencyDays ≤ d))).isEmpty then none
      else some (rows.filter (fun r =>
          match r.feedbackDate with
          | none => true
          | some d => decide (now - cfg.recencyDays ≤ d))) := rfl
  rw [hne] at hload
  have hload2 : load_feedback cfg now (some rows) true =
      if (rows.filter (fun r =>
          match r.feedbackDate with
          | none => true
          | some d => decide (now - cfg.recencyDays ≤ d))).isEmpty then none
      else some (rows.filter (fun r =>
          match r.feedbackDate with
          | none => true
          | some d => decide (now - cfg.recencyDays ≤ d))) := hload.trans rfl
  constructor
  · rintro ⟨kept, hk, hmem⟩
    rw [hload2] at hk
    by_cases hke : (rows.filter (fun r =>
        match r.feedbackDate with
        | none => true
        | some d => decide (now - cfg.recencyDays ≤ d))).isEmpty = true
    · rw [hke] at hk
      cases hk
    · rw [Bool.not_eq_true] at hke
      rw [hke] at hk
      have hkk : (rows.filter (fun r =>
          match r.feedbackDate with
          | none => true
          | some d => decide (now - cfg.recencyDays ≤ d))) = kept :=
        Option.some.inj hk
      rw [← hkk] at hmem
      exact (hpred r).1 (List.mem_filter.1 hmem).2
  · intro hcond
    have hp := (hpred r).2 hcond
    have hmem : r ∈ rows.filter (fun r =>
        match r.feedbackDate with
        | none => true
        | some d => decide (now - cfg.recencyDays ≤ d)) :=
      List.mem_filter.2 ⟨hr, hp⟩
    have hke : (rows.filter (fun r =>
        match r.feedbackDate with
        | none => true
        | some d => decide (now - cfg.recencyDays ≤ d))).isEmpty = false := by
      cases hf : rows.filter (fun r =>
        match r.feedbackDate with
        | none => true
        | some d => decide (now - cfg.recencyDays ≤ d)) with
      | nil => rw [hf] at hmem; cases hmem
      | cons a t => rfl
    rw [hke] at hload2
    refine ⟨_, hload2.trans rfl, hmem⟩

/-- C10, witness: a `NaT`-dated row is retained at a concrete input. -/
theorem c10_recency_filter_witness :
    ({ customer := "c1", product := "p1", rating := some "High", reasonCode := none,
       sentiment := none, feedbackDate := none } : FeedbackRow) ∈
      ([{ customer := "c1", product := "p1", rating := some "High", reasonCode := none,
          sentiment := none, feedbackDate := none }] : List FeedbackRow) ∧
    (∃ kept, load_feedback defaultFeedbackConfig 1000
        (some [{ customer := "c1", product := "p1", rating := some "High",
                 reasonCode := none, sentiment := none, feedbackDate := none }]) true =
        some kept ∧
      ({ customer := "c1", product := "p1", rating := some "High", reasonCode := none,
         sentiment := none, feedbackDate := none } : FeedbackRow) ∈ kept) := by
  refine ⟨by decide, ?_⟩
  exact (c10_recency_filter defaultFeedbackConfig 1000 _ _ (by decide)).2 (Or.inl rfl)

/-! ## C7 — rerun determinism of S5 -/

/-- C7, counterexample.  Identical inputs, configuration and seeds, but two
different wall-clock instants: at `now = 100` the day-0 feedback row is inside
the 365-day recency window, so calibration runs and a feedback summary is
published; at `now = 1000` the row is dropped, calibration is skipped and no
summary is produced.  The two runs' outputs differ. -/
theorem c7_counterexample :
    s5_main defaultFeedbackConfig true true true c7Reco (some c7Feedback) 100 ≠
      s5_main defaultFeedbackConfig true true true c7Reco (some c7Feedback) 1000 := by
  intro h
  have hA : (s5_main defaultFeedbackConfig true true true c7Reco
      (some c7Feedback) 100).2.isNone = false := rfl
  have hB : (s5_main defaultFeedbackConfig true true true c7Reco
      (some c7Feedback) 1000).2.isNone = true := rfl
  rw [h] at hA
  exact Bool.noConfusion (hA.symm.trans hB)

/-- C7, amended.  S5 is deterministic up to the wall clock: the published
final recommendations depend on the current time only through the feedback
recency filter — two runs whose recency filters retain the same rows produce
identical final recommendations — while `feedback_summary.json` embeds the
wall-clock generation timestamp (`generated_at`), so whenever a summary is
produced, runs at different instants differ in that field. -/
theorem c7_amended :
    (∀ (cfg : FeedbackConfig) (hD hR hS : Bool) (reco : List (RecRow × ℕ))
       (file : Option (List FeedbackRow)) (t₁ t₂ : ℤ),
       load_feedback cfg t₁ file hD = load_feedback cfg t₂ file hD →
       (s5_main cfg hD hR hS reco file t₁).1 = (s5_main cfg hD hR hS reco file t₂).1) ∧
    (∀ (cfg : FeedbackConfig) (hR hS : Bool) (now : ℤ) (fb : List FeedbackRow)
       (reco : List (RecRow × ℕ)),
       (build_feedback_summary cfg hR hS now fb reco).generatedAt = now) := by
  constructor
  · intro cfg hD hR hS reco file t₁ t₂ hload
    simp only [s5_main, hload]
    cases load_feedback cfg t₂ file hD <;> rfl
  · intro cfg hR hS now fb reco
    rfl

/-- C7, witness for the amended theorem: two runs at days 60 and 70 whose
recency filters agree produce the same final recommendations. -/
theorem c7_amended_witness :
    load_feedback defaultFeedbackConfig 60 (some c7bFeedback) true =
      load_feedback defaultFeedbackConfig 70 (some c7bFeedback) true ∧
    (s5_main defaultFeedbackConfig true true true c7Reco (some c7bFeedback) 60).1 =
      (s5_main defaultFeedbackConfig true true true c7Reco (some c7bFeedback) 70).1 := by
  refine ⟨by decide, ?_⟩
  exact c7_amended.1 defaultFeedbackConfig true true true c7Reco (some c7bFeedback) 60 70
    (by decide)

/-! ## C3 — elbow-based k selection -/

/-- If no k in the scanned range has a percentage drop below the threshold,
the elbow scan returns the fallback (maximum) k. -/
theorem elbowScan_no_elbow (fb : ℕ) (th : ℚ) (inertia : ℕ → ℚ) :
    ∀ (cnt s : ℕ),
      (∀ k, s + 1 ≤ k → k ≤ s + cnt → ¬ pctDrop inertia k < th) →
      elbowScan fb th (inertia s)
        ((List.range' (s+1) cnt).map (fun k => (k, inertia k))) = fb := by
  intro cnt
  induction cnt with
  | zero => intro s _; rfl
  | succ m ih =>
    intro s hno
    rw [List.range'_succ, List.map_cons]
    show elbowScan fb th (inertia s) ((s+1, inertia (s+1)) :: _) = fb
    rw [elbowScan]
    by_cases hz : inertia s = 0
    · rw [if_pos hz]
    · rw [if_neg hz]
      have hk1 : ¬ (inertia s - inertia (s+1)) / inertia s * 100 < th := by
        have := hno (s+1) (le_refl _) (by omega)
        rwa [pctDrop, Nat.add_sub_cancel] at this
      rw [if_neg hk1]
      exact ih (s+1) (fun k h1 h2 => hno k (by omega) (by omega))

/-- The elbow scan returns the first k whose percentage drop is below the
threshold, provided earlier inertias are nonzero. -/
theorem elbowScan_first_elbow (fb : ℕ) (th : ℚ) (inertia : ℕ → ℚ) :
    ∀ (cnt s k₀ : ℕ),
      s + 1 ≤ k₀ → k₀ ≤ s + cnt →
      pctDrop inertia k₀ < th →
      (∀ k, s + 1 ≤ k → k < k₀ → ¬ pctDrop inertia k < th) →
      (∀ k, s ≤ k → k < k₀ → inertia k ≠ 0) →
      elbowScan fb th (inertia s)
        ((List.range' (s+1) cnt).map (fun k => (k, inertia k))) = k₀ := by
  intro cnt
  induction cnt with
  | zero => intro s k₀ h1 h2 _ _ _; omega
  | succ m ih =>
    intro s k₀ h1 h2 hdrop hfirst hpos
    rw [List.range'_succ, List.map_cons]
    show elbowScan fb th (inertia s) ((s+1, inertia (s+1)) :: _) = k₀
    rw [elbowScan]
    have hz : inertia s ≠ 0 := hpos s (le_refl _) (by omega)
    rw [if_neg hz]
    by_cases hk : k₀ = s + 1
    · subst hk
      have : (inertia s - inertia (s+1)) / inertia s * 100 < th := by
        have := hdrop
        rwa [pctDrop, Nat.add_sub_cancel] at this
      rw [if_pos this]
    · have hk1 : ¬ (inertia s - inertia (s+1)) / inertia s * 100 < th := by
        have := hfirst (s+1) (le_refl _) (by omega)
        rwa [pctDrop, Nat.add_sub_cancel] at this
      rw [if_neg hk1]
      exact ih (s+1) k₀ (by omega) (by omega) hdrop
        (fun k ha hb => hfirst k (by omega) hb)
        (fun k ha hb => hpos k (by omega) hb)

/-- C3.  For a segment reaching `elbow_k` with `n ≥ 6` customers (every
segment with at least the default `MIN_CLUSTER_CUSTOMERS = 6`) and
`MAX_K ≥ 2`, clustering is attempted for k = 2..min(MAX_K, n-1), and the
chosen k is the first k whose percentage inertia drop from k-1 to k is below
the threshold; when no such k exists, the maximum k attempted is chosen. -/
theorem c3_elbow_selection (inertia : ℕ → ℚ) (n maxK : ℕ) (threshold : ℚ)
    (h6 : 6 ≤ n) (hK : 2 ≤ maxK) :
    ((∀ k, 3 ≤ k → k ≤ min maxK (n-1) → ¬ pctDrop inertia k < threshold) →
       elbow_k inertia n maxK threshold = min maxK (n-1)) ∧
    (∀ k₀, 3 ≤ k₀ → k₀ ≤ min maxK (n-1) → pctDrop inertia k₀ < threshold →
       (∀ k, 3 ≤ k → k < k₀ → ¬ pctDrop inertia k < threshold) →
       (∀ k, 2 ≤ k → k < k₀ → inertia k ≠ 0) →
       elbow_k inertia n maxK threshold = k₀) := by
  have hn4 : ¬ n < 4 := by omega
  have hn6 : ¬ n < 6 := by omega
  have heffge : 2 ≤ min maxK (n-1) := le_min hK (by omega)
  have heff2 : ¬ min maxK (n-1) < 2 := by omega
  have hsplit : List.range' 2 (min maxK (n-1) - 1) =
      2 :: List.range' 3 (min maxK (n-1) - 2) := by
    rw [show min maxK (n-1) - 1 = (min maxK (n-1) - 2) + 1 by omega, List.range'_succ]
  have hbody : elbow_k inertia n maxK threshold =
      elbowScan (min maxK (n-1)) threshold (inertia 2)
        ((List.range' 3 (min maxK (n-1) - 2)).map (fun k => (k, inertia k))) := by
    simp only [elbow_k, if_neg hn4, if_neg hn6, if_neg heff2, hsplit, List.map_cons]
  constructor
  · intro hno
    rw [hbody]
    exact elbowScan_no_elbow _ _ _ _ 2
      (fun k h1 h2 => hno k h1 (by omega))
  · intro k₀ h3 hle hdrop hfirst hpos
    rw [hbody]
    exact elbowScan_first_elbow _ _ _ _ 2 k₀ h3 (by omega) hdrop
      (fun k h1 h2 => hfirst k h1 h2) hpos

/-- C3, witness: with 6 customers, MAX_K = 3 and a 5 % drop from k = 2 to
k = 3 (below the 10 % threshold), k = 3 is chosen. -/
theorem c3_elbow_selection_witness :
    (6 ≤ 6 ∧ 2 ≤ 3 ∧ (3:ℕ) ≤ min 3 (6-1) ∧ pctDrop exInertia 3 < 10) ∧
    elbow_k exInertia 6 3 10 = 3 := by
  have hdrop : pctDrop exInertia 3 < 10 := by norm_num [pctDrop, exInertia]
  refine ⟨⟨le_refl _, by norm_num, by norm_num, hdrop⟩, ?_⟩
  refine (c3_elbow_selection exInertia 6 3 10 (le_refl _) (by norm_num)).2 3
    (le_refl _) (by norm_num) hdrop (fun k h1 h2 => by omega) ?_
  intro k h1 h2
  have : k = 2 := by omega
  subst this
  norm_num [exInertia]

/-! ## C4 — L3 tiebreak bonus -/

/-- C4.  For a candidate rule surviving every skip condition of the ranker's
association path: when the recommended product's L3 category is absent from
the customer's L3 affinity dict (`build_customer_l3_affinity`), the emitted
score is exactly the composite `score_rule` value with no bonus; when the L3
category is present with share `s` (and is a non-empty string), the emitted
score is the composite value plus the additive bonus
`s * L3_TIEBREAK_MARGIN`. -/
theorem c4_l3_bonus (cfg : RankConfig) (flags : RankingFlags) (basket : List BasketRow)
    (stockIds : List String) (cust : String) (bought : List String)
    (cluster segment : String) (recencyScore : ℚ) (r : AssocRow)
    (h1 : r.productB ∉ bought) (h2 : r.productA ∈ bought)
    (h3 : r.productB ∈ stockIds)
    (h4 : ¬ r.support < cfg.minSupport) (h5 : ¬ r.confidence < cfg.minConfidence)
    (h6 : ¬ (if flags.hasLift then r.lift else 1) < cfg.minLift) :
    (build_customer_l3_affinity flags.hasL3 basket cust
        (prodL3Get flags.hasL3 basket r.productB "") = none →
      (processRule cfg flags basket stockIds cust bought cluster segment recencyScore r).map
          (fun row => row.score) =
        some (score_rule cfg r.confidence
          (if flags.hasWeightedSupport then r.weightedSupport else r.support)
          (if flags.hasLift then r.lift else 1) recencyScore)) ∧
    (∀ s : ℚ, prodL3Get flags.hasL3 basket r.productB "" ≠ "" →
      build_customer_l3_affinity flags.hasL3 basket cust
        (prodL3Get flags.hasL3 basket r.productB "") = some s →
      (processRule cfg flags basket stockIds cust bought cluster segment recencyScore r).map
          (fun row => row.score) =
        some (score_rule cfg r.confidence
          (if flags.hasWeightedSupport then r.weightedSupport else r.support)
          (if flags.hasLift then r.lift else 1) recencyScore +
          s * cfg.l3TiebreakMargin)) := by
  have hbody : (processRule cfg flags basket stockIds cust bought cluster segment
      recencyScore r).map (fun row => row.score) =
      some (score_rule cfg r.confidence
        (if flags.hasWeightedSupport then r.weightedSupport else r.support)
        (if flags.hasLift then r.lift else 1) recencyScore +
        (if prodL3Get flags.hasL3 basket r.productB "" ≠ "" ∧
            custL3Mem flags.hasL3 basket cust (prodL3Get flags.hasL3 basket r.productB "")
          then l3Share basket cust (prodL3Get flags.hasL3 basket r.productB "") *
            cfg.l3TiebreakMargin
          else 0)) := by
    rw [processRule, if_neg h1, if_neg (not_not_intro h2), if_neg (not_not_intro h3),
      if_neg h4, if_neg h5, if_neg h6]
    rfl
  constructor
  · intro hnone
    have hmem : custL3Mem flags.hasL3 basket cust
        (prodL3Get flags.hasL3 basket r.productB "") = false := by
      by_cases hm : custL3Mem flags.hasL3 basket cust
          (prodL3Get flags.hasL3 basket r.productB "") = true
      · rw [build_customer_l3_affinity, if_pos hm] at hnone
        cases hnone
      · exact Bool.eq_false_iff.2 hm
    rw [hbody]
    have : ¬ (prodL3Get flags.hasL3 basket r.productB "" ≠ "" ∧
        custL3Mem flags.hasL3 basket cust
          (prodL3Get flags.hasL3 basket r.productB "") = true) := by
      rintro ⟨-, hc⟩
      rw [hmem] at hc
      cases hc
    rw [if_neg this, add_zero]
  · intro s hne hsome
    have hmem : custL3Mem flags.hasL3 basket cust
        (prodL3Get flags.hasL3 basket r.productB "") = true := by
      by_cases hm : custL3Mem flags.hasL3 basket cust
          (prodL3Get flags.hasL3 basket r.productB "") = true
      · exact hm
      · rw [build_customer_l3_affinity, if_neg hm] at hsome
        cases hsome
    have hs : l3Share basket cust (prodL3Get flags.hasL3 basket r.productB "") = s := by
      rw [build_customer_l3_affinity, if_pos hmem] at hsome
      exact Option.some.inj hsome
    have hcond : prodL3Get flags.hasL3 basket r.productB "" ≠ "" ∧
        custL3Mem flags.hasL3 basket cust
          (prodL3Get flags.hasL3 basket r.productB "") = true := ⟨hne, hmem⟩
    rw [hbody, hs, if_pos hcond]

/-- C4, witness: customer `c1` (all purchases in L3A, share 1).  The candidate
`C` (category L3A) receives the bonus `1 * L3_TIEBREAK_MARGIN` on top of its
composite score; the candidate `B` (category L3B, outside `c1`'s history)
receives no bonus. -/
theorem c4_l3_bonus_witness :
    (("C" : String) ∉ ["A"] ∧ ("A" : String) ∈ ["A"] ∧
     ("C" : String) ∈ ["A", "B", "C"] ∧
     ¬ c4Rule.support < defaultRankConfig.minSupport ∧
     prodL3Get allFlags.hasL3 c4Basket c4Rule.productB "" ≠ "" ∧
     build_customer_l3_affinity allFlags.hasL3 c4Basket "c1"
       (prodL3Get allFlags.hasL3 c4Basket c4Rule.productB "") = some 1 ∧
     build_customer_l3_affinity allFlags.hasL3 c4Basket "c1"
       (prodL3Get allFlags.hasL3 c4Basket c4RuleB.productB "") = none) ∧
    (processRule defaultRankConfig allFlags c4Basket ["A", "B", "C"] "c1" ["A"]
        "k0" "s" 1 c4Rule).map (fun row => row.score) =
      some (score_rule defaultRankConfig c4Rule.confidence c4Rule.weightedSupport
        c4Rule.lift 1 + 1 * defaultRankConfig.l3TiebreakMargin) ∧
    (processRule defaultRankConfig allFlags c4Basket ["A", "B", "C"] "c1" ["A"]
        "k0" "s" 1 c4RuleB).map (fun row => row.score) =
      some (score_rule defaultRankConfig c4RuleB.confidence c4RuleB.weightedSupport
        c4RuleB.lift 1) := by
  have hp : prodL3Get allFlags.hasL3 c4Basket c4Rule.productB "" = "L3A" := rfl
  have hpB : prodL3Get allFlags.hasL3 c4Basket c4RuleB.productB "" = "L3B" := rfl
  have hsome : build_customer_l3_affinity allFlags.hasL3 c4Basket "c1"
      (prodL3Get allFlags.hasL3 c4Basket c4Rule.productB "") = some 1 := by
    rw [hp]
    simp [build_customer_l3_affinity, custL3Mem, l3Share, c4Basket, allFlags]
  have hnone : build_customer_l3_affinity allFlags.hasL3 c4Basket "c1"
      (prodL3Get allFlags.hasL3 c4Basket c4RuleB.productB "") = none := by
    rw [hpB]
    simp [build_customer_l3_affinity, custL3Mem, c4Basket, allFlags]
  have hne : prodL3Get allFlags.hasL3 c4Basket c4Rule.productB "" ≠ "" := by
    rw [hp]
    decide
  have h4 : ¬ c4Rule.support < defaultRankConfig.minSupport := by
    norm_num [c4Rule, defaultRankConfig]
  refine ⟨⟨by decide, by decide, by decide, h4, hne, hsome, hnone⟩, ?_, ?_⟩
  · exact (c4_l3_bonus defaultRankConfig allFlags c4Basket ["A", "B", "C"] "c1" ["A"]
      "k0" "s" 1 c4Rule (by decide) (by decide) (by decide) h4
      (by norm_num [c4Rule, defaultRankConfig])
      (by norm_num [c4Rule, defaultRankConfig, allFlags])).2 1 hne hsome
  · exact (c4_l3_bonus defaultRankConfig allFlags c4Basket ["A", "B", "C"] "c1" ["A"]
      "k0" "s" 1 c4RuleB (by decide) (by decide) (by decide)
      (by norm_num [c4RuleB, defaultRankConfig])
      (by norm_num [c4RuleB, defaultRankConfig])
      (by norm_num [c4RuleB, defaultRankConfig, allFlags])).1 hnone

/-! ## C1 — association-rule invariants -/

/-- A conjunction filter selects at most as many elements as its first
conjunct alone. -/
theorem length_filter_and_le {α : Type} (p q : α → Bool) (l : List α) :
    (l.filter (fun k => p k && q k)).length ≤ (l.filter p).length := by
  induction l with
  | nil => simp
  | cons a t ih =>
    simp only [List.filter_cons]
    cases hp : p a <;> cases hq : q a <;> simp [hp, hq] <;> omega

/-- Counting invariants of the mined metrics: baskets containing both
products are among the baskets containing product A, which are among all
baskets of the cluster. -/
theorem pair_product_total_le (recs : List MinedRecord) (seg cl a b : String) :
    pair_freq recs seg cl a b ≤ product_freq recs seg cl a ∧
    product_freq recs seg cl a ≤ total_baskets recs seg cl :=
  ⟨length_filter_and_le _ _ _, List.length_filter_le _ _⟩

/-- The metric bounds of a single computed association row. -/
theorem mkAssocRow_bounds (w : String × ℕ → ℚ) (recs : List MinedRecord)
    (key : String × String × String × String) :
    0 ≤ (mkAssocRow w recs key).confidence ∧ (mkAssocRow w recs key).confidence ≤ 1 ∧
    0 ≤ (mkAssocRow w recs key).support ∧ (mkAssocRow w recs key).support ≤ 1 ∧
    (mkAssocRow w recs key).pairFreq ≤ (mkAssocRow w recs key).productFreq ∧
    (mkAssocRow w recs key).productFreq ≤ (total_baskets recs key.1 key.2.1 : ℚ) := by
  have h1 := (pair_product_total_le recs key.1 key.2.1 key.2.2.1 key.2.2.2).1
  have h2 := (pair_product_total_le recs key.1 key.2.1 key.2.2.1 key.2.2.2).2
  have hconf : (mkAssocRow w recs key).confidence =
      (pair_freq recs key.1 key.2.1 key.2.2.1 key.2.2.2 : ℚ) /
      (product_freq recs key.1 key.2.1 key.2.2.1 : ℚ) := rfl
  have hsupp : (mkAssocRow w recs key).support =
      (pair_freq recs key.1 key.2.1 key.2.2.1 key.2.2.2 : ℚ) /
      (total_baskets recs key.1 key.2.1 : ℚ) := rfl
  have hpf : (mkAssocRow w recs key).pairFreq =
      (pair_freq recs key.1 key.2.1 key.2.2.1 key.2.2.2 : ℚ) := rfl
  have hprodf : (mkAssocRow w recs key).productFreq =
      (product_freq recs key.1 key.2.1 key.2.2.1 : ℚ) := rfl
  refine ⟨?_, ?_, ?_, ?_, ?_, ?_⟩
  · rw [hconf]; exact div_nonneg (Nat.cast_nonneg _) (Nat.cast_nonneg _)
  · rw [hconf]
    exact div_le_one_of_le₀ (Nat.cast_le.2 h1) (Nat.cast_nonneg _)
  · rw [hsupp]; exact div_nonneg (Nat.cast_nonneg _) (Nat.cast_nonneg _)
  · rw [hsupp]
    exact div_le_one_of_le₀ (Nat.cast_le.2 (h1.trans h2)) (Nat.cast_nonneg _)
  · rw [hpf, hprodf]; exact_mod_cast h1
  · rw [hprodf]; exact_mod_cast h2

/-- C1.  Every association row emitted by the mining stage satisfies
0 ≤ confidence ≤ 1, 0 ≤ support ≤ 1 and
pair_freq ≤ product_freq ≤ total baskets of the rule's cluster; the stage's
sanity assertions always pass on the computed rows; and any row list
containing a row with confidence or support above 1 (beyond the 1e-9
assertion tolerance) makes the assertion check fatal. -/
theorem c1_assoc_invariants :
    (∀ (cfg : AssocConfig) (w : String × ℕ → ℚ) (invs : List Invoice)
       (cls : List ClusterRow) (window : ℤ) (row : AssocRow),
       row ∈ assocEmittedRows cfg w invs cls window →
       0 ≤ row.confidence ∧ row.confidence ≤ 1 ∧
       0 ≤ row.support ∧ row.support ≤ 1 ∧
       row.pairFreq ≤ row.productFreq ∧
       row.productFreq ≤
         (total_baskets (minedRecords invs cls window) row.segment row.cluster : ℚ)) ∧
    (∀ (w : String × ℕ → ℚ) (invs : List Invoice) (cls : List ClusterRow) (window : ℤ),
       checkAssertions (assocMetricRows w invs cls window) =
         Except.ok (assocMetricRows w invs cls window)) ∧
    (∀ rows : List AssocRow,
       (∃ r ∈ rows, 1 + 1/1000000000 < r.confidence ∨ 1 + 1/1000000000 < r.support) →
       checkAssertions rows = Except.error "confidence or support exceeds 1.0") := by
  refine ⟨?_, ?_, ?_⟩
  · intro cfg w invs cls window row hrowmem
    have he : assocEmittedRows cfg w invs cls window =
        ((assocPairKeys (minedRecords invs cls window)).map
          (mkAssocRow w (minedRecords invs cls window))).filter
          (fun row => decide ((min_freq cfg (total_baskets (minedRecords invs cls window)
              row.segment row.cluster) : ℚ) ≤ row.productFreq) &&
            decide (cfg.minLift ≤ row.lift)) := rfl
    rw [he] at hrowmem
    obtain ⟨key, hkey, hk⟩ := List.mem_map.1 (List.mem_filter.1 hrowmem).1
    subst hk
    exact mkAssocRow_bounds w (minedRecords invs cls window) key
  · intro w invs cls window
    have hall : (assocMetricRows w invs cls window).all (fun r =>
        decide (r.confidence ≤ 1 + 1/1000000000) &&
        decide (r.support ≤ 1 + 1/1000000000)) = true := by
      rw [List.all_eq_true]
      intro r hrmem
      have hm : assocMetricRows w invs cls window =
          (assocPairKeys (minedRecords invs cls window)).map
            (mkAssocRow w (minedRecords invs cls window)) := rfl
      rw [hm] at hrmem
      obtain ⟨key, hkey, hk⟩ := List.mem_map.1 hrmem
      subst hk
      have hb := mkAssocRow_bounds w (minedRecords invs cls window) key
      rw [Bool.and_eq_true, decide_eq_true_eq, decide_eq_true_eq]
      constructor
      · linarith [hb.2.1]
      · linarith [hb.2.2.2.1]
    rw [checkAssertions, if_pos hall]
  · rintro rows ⟨r, hr, hviol⟩
    have hall : rows.all (fun r =>
        decide (r.confidence ≤ 1 + 1/1000000000) &&
        decide (r.support ≤ 1 + 1/1000000000)) = false := by
      rw [Bool.eq_false_iff]
      intro h
      have := List.all_eq_true.1 h r hr
      rw [Bool.and_eq_true, decide_eq_true_eq, decide_eq_true_eq] at this
      rcases hviol with h1 | h2
      · linarith [this.1]
      · linarith [this.2]
    rw [checkAssertions, if_neg (by rw [hall]; exact Bool.false_ne_true)]

/-- C1, witness: on a basket of the two products `x`, `y` bought together by
one clustered customer (filters disabled, unit decay weights), the rule
`x → y` is emitted and satisfies all the invariants. -/
theorem c1_assoc_invariants_witness :
    (mkAssocRow (fun _ => 1) (minedRecords ex1Invoices ex1Clusters 7)
        ("s", "k0", "x", "y")) ∈
      assocEmittedRows assocCfg0 (fun _ => 1) ex1Invoices ex1Clusters 7 ∧
    (0 ≤ (mkAssocRow (fun _ => 1) (minedRecords ex1Invoices ex1Clusters 7)
        ("s", "k0", "x", "y")).confidence ∧
     (mkAssocRow (fun _ => 1) (minedRecords ex1Invoices ex1Clusters 7)
        ("s", "k0", "x", "y")).confidence ≤ 1 ∧
     0 ≤ (mkAssocRow (fun _ => 1) (minedRecords ex1Invoices ex1Clusters 7)
        ("s", "k0", "x", "y")).support ∧
     (mkAssocRow (fun _ => 1) (minedRecords ex1Invoices ex1Clusters 7)
        ("s", "k0", "x", "y")).support ≤ 1 ∧
     (mkAssocRow (fun _ => 1) (minedRecords ex1Invoices ex1Clusters 7)
        ("s", "k0", "x", "y")).pairFreq ≤
       (mkAssocRow (fun _ => 1) (minedRecords ex1Invoices ex1Clusters 7)
        ("s", "k0", "x", "y")).productFreq ∧
     (mkAssocRow (fun _ => 1) (minedRecords ex1Invoices ex1Clusters 7)
        ("s", "k0", "x", "y")).productFreq ≤
       (total_baskets (minedRecords ex1Invoices ex1Clusters 7)
         (mkAssocRow (fun _ => 1) (minedRecords ex1Invoices ex1Clusters 7)
           ("s", "k0", "x", "y")).segment
         (mkAssocRow (fun _ => 1) (minedRecords ex1Invoices ex1Clusters 7)
           ("s", "k0", "x", "y")).cluster : ℚ)) := by
  have e1 : pair_freq (minedRecords ex1Invoices ex1Clusters 7) "s" "k0" "x" "y" = 1 := by
    decide
  have e2 : product_freq (minedRecords ex1Invoices ex1Clusters 7) "s" "k0" "x" = 1 := by
    decide
  have e3 : product_freq (minedRecords ex1Invoices ex1Clusters 7) "s" "k0" "y" = 1 := by
    decide
  have e4 : total_baskets (minedRecords ex1Invoices ex1Clusters 7) "s" "k0" = 1 := by
    decide
  have hmem : (mkAssocRow (fun _ => 1) (minedRecords ex1Invoices ex1Clusters 7)
      ("s", "k0", "x", "y")) ∈
      assocEmittedRows assocCfg0 (fun _ => 1) ex1Invoices ex1Clusters 7 := by
    have he : assocEmittedRows assocCfg0 (fun _ => 1) ex1Invoices ex1Clusters 7 =
        ((assocPairKeys (minedRecords ex1Invoices ex1Clusters 7)).map
          (mkAssocRow (fun _ => 1) (minedRecords ex1Invoices ex1Clusters 7))).filter
          (fun row => decide ((min_freq assocCfg0
              (total_baskets (minedRecords ex1Invoices ex1Clusters 7)
                row.segment row.cluster) : ℚ) ≤ row.productFreq) &&
            decide (assocCfg0.minLift ≤ row.lift)) := rfl
    rw [he]
    refine List.mem_filter.2 ⟨List.mem_map.2 ⟨("s", "k0", "x", "y"), by decide, rfl⟩, ?_⟩
    have hseg : (mkAssocRow (fun _ => 1) (minedRecords ex1Invoices ex1Clusters 7)
        ("s", "k0", "x", "y")).segment = "s" := rfl
    have hcl : (mkAssocRow (fun _ => 1) (minedRecords ex1Invoices ex1Clusters 7)
        ("s", "k0", "x", "y")).cluster = "k0" := rfl
    have hpf : (mkAssocRow (fun _ => 1) (minedRecords ex1Invoices ex1Clusters 7)
        ("s", "k0", "x", "y")).productFreq =
        (product_freq (minedRecords ex1Invoices ex1Clusters 7) "s" "k0" "x" : ℚ) := rfl
    have hlift : (mkAssocRow (fun _ => 1) (minedRecords ex1Invoices ex1Clusters 7)
        ("s", "k0", "x", "y")).lift =
        (if ((product_freq (minedRecords ex1Invoices ex1Clusters 7) "s" "k0" "y" : ℚ) /
            (total_baskets (minedRecords ex1Invoices ex1Clusters 7) "s" "k0" : ℚ)) = 0
         then 0
         else roundQ (((pair_freq (minedRecords ex1Invoices ex1Clusters 7) "s" "k0" "x" "y" : ℚ) /
            (product_freq (minedRecords ex1Invoices ex1Clusters 7) "s" "k0" "x" : ℚ)) /
            (((product_freq (minedRecords ex1Invoices ex1Clusters 7) "s" "k0" "y" : ℚ)) /
            (total_baskets (minedRecords ex1Invoices ex1Clusters 7) "s" "k0" : ℚ))) 4) := rfl
    rw [Bool.and_eq_true, decide_eq_true_eq, decide_eq_true_eq, hseg, hcl, hpf, hlift,
      e1, e2, e3, e4]
    constructor
    · norm_num [min_freq, assocCfg0]
    · norm_num [assocCfg0, roundQ, roundHalfEven]
  exact ⟨hmem, c1_assoc_invariants.1 assocCfg0 (fun _ => 1) ex1Invoices ex1Clusters 7 _ hmem⟩

/-! ## C5 — no pair_freq/product_freq invariant check in the ranker -/

/-- On `exBasketInStock`, the fabricated rule passes every threshold of the
per-rule loop and produces the recommendation row `exRecB`. -/
theorem processRule_exBadRow :
    processRule defaultRankConfig allFlags exBasketInStock ["A", "B"] "c1" ["A"]
      "k0" "s" 1 exBadRow = some exRecB := by
  have hl2B : prodL2Get true exBasketInStock "B" "Unknown" = "L2B" := rfl
  have hl3B : prodL3Get true exBasketInStock "B" "Unknown" = "L3B" := rfl
  have hl3Bp : prodL3Get true exBasketInStock "B" "" = "L3B" := rfl
  have hmemB : custL3Mem true exBasketInStock "c1" "L3B" = false := rfl
  have hqty : qtyLookup exBasketInStock "c1" "A" = 1 := by
    norm_num [qtyLookup, medianQ, sortB, insertSorted, roundHalfEven, exBasketInStock]
  rw [processRule, if_neg (by decide), if_neg (by decide), if_neg (by decide),
    if_neg (by norm_num [defaultRankConfig, exBadRow]),
    if_neg (by norm_num [defaultRankConfig, exBadRow]),
    if_neg (by norm_num [defaultRankConfig, allFlags, exBadRow])]
  simp only [allFlags]
  norm_num [score_rule, normalise_lift, clipQ, defaultRankConfig, exRecB, exBadRow, hqty,
    hl2B, hl3B, hl3Bp, hmemB]

/-- Customer `c1`'s association pass on the fabricated input. -/
theorem customerAssocRows_exBadRow :
    customerAssocRows defaultRankConfig allFlags exBasketInStock
      (dfRows exBasketInStock exRankClusters)
      (inStockIds allFlags.hasInStock exBasketInStock) exBadAssoc "c1" = [exRecB] := by
  have hdf : dfRows exBasketInStock exRankClusters =
      [({ customer := "c1", product := "A", l2 := "L2A", l3 := "L3A",
          purchaseFrequency := 1, totalQuantity := 1, recencyDays := 0,
          inStock := "true", segment := "s" }, "k0")] := rfl
  have hstock : inStockIds allFlags.hasInStock exBasketInStock = ["A", "B"] := rfl
  have hfilt : List.filter (fun a => decide (a.cluster = "k0") && decide (a.segment = "s"))
      [exBadRow] = [exBadRow] := rfl
  rw [customerAssocRows, hdf, hstock]
  norm_num [meanQ, exBadAssoc, hfilt, List.filterMap_cons, List.filterMap_nil,
    processRule_exBadRow]

/-- The pre-rank recommendation frame on the fabricated input. -/
theorem rankingPreRank_exBadRow :
    rankingPreRank defaultRankConfig allFlags exBasketInStock exRankClusters exBadAssoc =
      [exRecB] := by
  have hcust : sortedCustomers (dfRows exBasketInStock exRankClusters) = ["c1"] := rfl
  simp only [rankingPreRank, hcust, List.flatMap_cons, List.flatMap_nil,
    customerAssocRows_exBadRow, List.append_nil, List.filter_cons, List.filter_nil,
    List.isEmpty_cons]
  rfl

/-- Ranking the single surviving row assigns rank 1. -/
theorem rankAndCap_exRecB :
    rankAndCap (fun r : RecRow => r.customer) (fun r => r.score) [exRecB]
      defaultRankConfig.topK = [(exRecB, 1)] := by
  norm_num [rankAndCap, rankFirstDesc, List.enum, List.enumFrom, List.countP_cons,
    List.countP_nil, exRecB, defaultRankConfig]

/-- C5, counterexample.  On an associations input containing a row with
pair_freq = 5 > product_freq = 3, the ranking stage raises no error at all:
it consumes the row like any other and emits the normal recommendation
`B` (trigger `A`, rank 1) derived from it. -/
theorem c5_counterexample :
    (ranking_main defaultRankConfig allFlags exBasketInStock exRankClusters
        exBadAssoc).map (fun p => (p.1.customer, p.1.product, p.1.trigger, p.2)) =
      [("c1", "B", "A", 1)] ∧
    exBadRow ∈ exBadAssoc ∧ exBadRow.productFreq < exBadRow.pairFreq := by
  refine ⟨?_, List.mem_cons_self _ _, by norm_num [exBadRow]⟩
  simp only [ranking_main, rankingPreRank_exBadRow, rankAndCap_exRecB]
  rfl

/-- The per-rule loop never reads the frequency columns. -/
theorem processRule_stripFreq (cfg : RankConfig) (flags : RankingFlags)
    (basket : List BasketRow) (stockIds : List String) (cust : String)
    (bought : List String) (cluster segment : String) (recencyScore : ℚ)
    (r : AssocRow) :
    processRule cfg flags basket stockIds cust bought cluster segment recencyScore
      (stripFreq r) =
    processRule cfg flags basket stockIds cust bought cluster segment recencyScore r := rfl

/-- Filtering then filter-mapping a list of stripped rows equals doing so on
the original rows, when neither function reads the stripped columns. -/
theorem filterMap_filter_stripFreq (p : AssocRow → Bool) (g : AssocRow → Option RecRow)
    (l : List AssocRow) (hp : ∀ a, p (stripFreq a) = p a)
    (hg : ∀ a, g (stripFreq a) = g a) :
    ((l.map stripFreq).filter p).filterMap g = (l.filter p).filterMap g := by
  induction l with
  | nil => rfl
  | cons a t ih =>
    simp only [List.map_cons, List.filter_cons, hp a]
    cases hpa : p a with
    | false => simpa [hpa] using ih
    | true => simp [hpa, List.filterMap_cons, hg a, ih]

/-- The per-customer association pass is blind to the frequency columns. -/
theorem customerAssocRows_stripFreq (cfg : RankConfig) (flags : RankingFlags)
    (basket : List BasketRow) (df : List (BasketRow × String))
    (stockIds : List String) (assoc : List AssocRow) (cust : String) :
    customerAssocRows cfg flags basket df stockIds (assoc.map stripFreq) cust =
    customerAssocRows cfg flags basket df stockIds assoc cust := by
  simp only [customerAssocRows]
  cases (List.filter (fun r => decide (r.1.customer = cust)) df).head? with
  | none => rfl
  | some r0 =>
    exact filterMap_filter_stripFreq _ _ assoc (fun a => rfl) (fun a => rfl)

/-- The whole ranking stage is blind to the frequency columns. -/
theorem ranking_main_stripFreq (cfg : RankConfig) (flags : RankingFlags)
    (basket : List BasketRow) (cls : List ClusterRow) (assoc : List AssocRow) :
    ranking_main cfg flags basket cls (assoc.map stripFreq) =
    ranking_main cfg flags basket cls assoc := by
  have hfun : customerAssocRows cfg flags basket (dfRows basket cls)
      (inStockIds flags.hasInStock basket) (assoc.map stripFreq) =
      customerAssocRows cfg flags basket (dfRows basket cls)
        (inStockIds flags.hasInStock basket) assoc :=
    funext (fun cust => customerAssocRows_stripFreq cfg flags basket _ _ assoc cust)
  simp only [ranking_main, rankingPreRank, hfun]

/-- C5, amended.  The ranking stage performs no pair_freq/product_freq
invariant check and never reads those columns at all: two associations inputs
that agree on every column except pair_freq and product_freq produce an
identical ranking output — in particular a row violating
pair_freq ≤ product_freq is consumed like any other, with no Invariant
error. -/
theorem c5_amended (cfg : RankConfig) (flags : RankingFlags) (basket : List BasketRow)
    (cls : List ClusterRow) (assoc assoc2 : List AssocRow)
    (h : assoc.map stripFreq = assoc2.map stripFreq) :
    ranking_main cfg flags basket cls assoc = ranking_main cfg flags basket cls assoc2 := by
  calc ranking_main cfg flags basket cls assoc
      = ranking_main cfg flags basket cls (assoc.map stripFreq) :=
        (ranking_main_stripFreq cfg flags basket cls assoc).symm
    _ = ranking_main cfg flags basket cls (assoc2.map stripFreq) := by rw [h]
    _ = ranking_main cfg flags basket cls assoc2 :=
        ranking_main_stripFreq cfg flags basket cls assoc2

/-- C5, witness for the amended theorem: the two fabricated inputs differ only
in their impossible frequency columns and yield the same ranking output. -/
theorem c5_amended_witness :
    exBadAssoc.map stripFreq = exBadAssoc2.map stripFreq ∧
    ranking_main defaultRankConfig allFlags exBasketInStock exRankClusters exBadAssoc =
      ranking_main defaultRankConfig allFlags exBasketInStock exRankClusters exBadAssoc2 :=
  ⟨rfl, c5_amended defaultRankConfig allFlags exBasketInStock exRankClusters
    exBadAssoc exBadAssoc2 rfl⟩

/-! ## C9 — the in-stock filter degenerates without an `in_stock` column -/

/-- Inserting an element permutes the consed list. -/
theorem insertSorted_perm {α : Type} (le : α → α → Bool) (x : α) (l : List α) :
    (insertSorted le x l).Perm (x :: l) := by
  induction l with
  | nil => exact List.Perm.refl _
  | cons y ys ih =>
    rw [insertSorted]
    by_cases h : le x y = true
    · rw [if_pos h]
    · rw [if_neg h]
      exact (List.Perm.cons y ih).trans (List.Perm.swap x y ys)

/-- The stable sort permutes its input. -/
theorem sortB_perm {α : Type} (le : α → α → Bool) (l : List α) :
    (sortB le l).Perm l := by
  induction l with
  | nil => exact List.Perm.refl _
  | cons x xs ih =>
    exact (insertSorted_perm le x (sortB le xs)).trans (List.Perm.cons x ih)

/-- `pandasHead` keeps a subset of its input. -/
theorem pandasHead_subset {α : Type} (n : ℤ) (l : List α) : pandasHead n l ⊆ l := by
  unfold pandasHead
  split_ifs <;> exact List.take_subset _ _

/-- A rule surviving the per-rule loop recommends a product from the in-stock
set. -/
theorem processRule_stock (cfg : RankConfig) (flags : RankingFlags)
    (basket : List BasketRow) (stockIds : List String) (cust : String)
    (bought : List String) (cluster segment : String) (recencyScore : ℚ)
    (r : AssocRow) (row : RecRow)
    (h : processRule cfg flags basket stockIds cust bought cluster segment
      recencyScore r = some row) :
    row.product ∈ stockIds := by
  by_cases h1 : r.productB ∈ bought
  · rw [processRule, if_pos h1] at h
    exact Option.noConfusion h
  by_cases h2 : r.productA ∉ bought
  · rw [processRule, if_neg h1, if_pos h2] at h
    exact Option.noConfusion h
  by_cases h3 : r.productB ∉ stockIds
  · rw [processRule, if_neg h1, if_neg h2, if_pos h3] at h
    exact Option.noConfusion h
  by_cases h4 : r.support < cfg.minSupport
  · rw [processRule, if_neg h1, if_neg h2, if_neg h3, if_pos h4] at h
    exact Option.noConfusion h
  by_cases h5 : r.confidence < cfg.minConfidence
  · rw [processRule, if_neg h1, if_neg h2, if_neg h3, if_neg h4, if_pos h5] at h
    exact Option.noConfusion h
  by_cases h6 : (if flags.hasLift then r.lift else 1) < cfg.minLift
  · rw [processRule, if_neg h1, if_neg h2, if_neg h3, if_neg h4, if_neg h5,
      if_pos h6] at h
    exact Option.noConfusion h
  rw [processRule, if_neg h1, if_neg h2, if_neg h3, if_neg h4, if_neg h5,
    if_neg h6] at h
  have hr := Option.some.inj h
  subst hr
  exact not_not.1 h3

/-- Every association-path recommendation of one customer is in stock. -/
theorem customerAssocRows_stock (cfg : RankConfig) (flags : RankingFlags)
    (basket : List BasketRow) (df : List (BasketRow × String))
    (stockIds : List String) (assoc : List AssocRow) (cust : String) (row : RecRow)
    (h : row ∈ customerAssocRows cfg flags basket df stockIds assoc cust) :
    row.product ∈ stockIds := by
  simp only [customerAssocRows] at h
  cases hh : (List.filter (fun r => decide (r.1.customer = cust)) df).head? with
  | none => rw [hh] at h; cases h
  | some r0 =>
    rw [hh] at h
    obtain ⟨a, _, hpr⟩ := List.mem_filterMap.1 h
    exact processRule_stock cfg flags basket stockIds cust _ _ _ _ a row hpr

/-- Every association-path recommendation is in stock (with respect to
whatever the in-stock set is, given the column-presence flag). -/
theorem assocPathRows_stock (cfg : RankConfig) (flags : RankingFlags)
    (basket : List BasketRow) (cls : List ClusterRow) (assoc : List AssocRow)
    (row : RecRow) (h : row ∈ assocPathRows cfg flags basket cls assoc) :
    row.product ∈ inStockIds flags.hasInStock basket := by
  simp only [assocPathRows] at h
  obtain ⟨c, _, hmem⟩ := List.mem_flatMap.1 h
  exact customerAssocRows_stock cfg flags basket _ _ assoc c row hmem

/-- Every fallback recommendation is drawn from the in-stock set. -/
theorem fallback_stock (cfg : RankConfig) (flags : RankingFlags)
    (df : List (BasketRow × String)) (basket : List BasketRow)
    (uncovered : List String) (stockIds : List String)
    (existing : String → List String) (row : RecRow)
    (h : row ∈ category_aware_fallback cfg flags df basket uncovered stockIds existing) :
    row.product ∈ stockIds := by
  simp only [category_aware_fallback] at h
  obtain ⟨c, _, hmem⟩ := List.mem_flatMap.1 h
  cases hh : (List.filter (fun r => decide (r.1.customer = c)) df).head? with
  | none => rw [hh] at hmem; cases hmem
  | some r0 =>
    rw [hh] at hmem
    obtain ⟨p, hp, hrow⟩ := List.mem_map.1 hmem
    have hp3 := (sortB_perm _ _).subset (pandasHead_subset _ _ hp)
    have hcond := (List.mem_filter.1 hp3).2
    rw [decide_eq_true_eq] at hcond
    rw [← hrow]
    exact hcond.1

/-- C9.  Without an `in_stock` column, the in-stock set degenerates to every
product appearing in the market basket, so the stock filters of both paths
accept any basket product (and out-of-stock products, per the product table,
can be recommended); conversely, every recommendation of either path is in
the in-stock set, so the in-stock guarantee holds exactly when the column is
present. -/
theorem c9_no_stock_column :
    (∀ (basket : List BasketRow) (p : String),
       p ∈ inStockIds false basket ↔ p ∈ basket.map (fun r => r.product)) ∧
    (∀ (cfg : RankConfig) (flags : RankingFlags) (basket : List BasketRow)
       (cls : List ClusterRow) (assoc : List AssocRow) (row : RecRow),
       row ∈ assocPathRows cfg flags basket cls assoc →
       row.product ∈ inStockIds flags.hasInStock basket) ∧
    (∀ (cfg : RankConfig) (flags : RankingFlags) (df : List (BasketRow × String))
       (basket : List BasketRow) (uncovered : List String) (stockIds : List String)
       (existing : String → List String) (row : RecRow),
       row ∈ category_aware_fallback cfg flags df basket uncovered stockIds existing →
       row.product ∈ stockIds) := by
  refine ⟨?_, ?_, ?_⟩
  · intro basket p
    have he : inStockIds false basket = (basket.map (fun r => r.product)).dedup := rfl
    rw [he]
    exact List.mem_dedup
  · intro cfg flags basket cls assoc row h
    exact assocPathRows_stock cfg flags basket cls assoc row h
  · intro cfg flags df basket uncovered stockIds existing row h
    exact fallback_stock cfg flags df basket uncovered stockIds existing row h

/-- With the `in_stock` column absent, the fabricated rule still survives the
per-rule loop on `exBasket`, where product `B` is marked out of stock. -/
theorem processRule_noStock :
    processRule defaultRankConfig noStockFlags exBasket ["A", "B"] "c1" ["A"]
      "k0" "s" 1 exBadRow = some exRecB := by
  have hl2B : prodL2Get true exBasket "B" "Unknown" = "L2B" := rfl
  have hl3B : prodL3Get true exBasket "B" "Unknown" = "L3B" := rfl
  have hl3Bp : prodL3Get true exBasket "B" "" = "L3B" := rfl
  have hmemB : custL3Mem true exBasket "c1" "L3B" = false := rfl
  have hqty : qtyLookup exBasket "c1" "A" = 1 := by
    norm_num [qtyLookup, medianQ, sortB, insertSorted, roundHalfEven, exBasket]
  rw [processRule, if_neg (by decide), if_neg (by decide), if_neg (by decide),
    if_neg (by norm_num [defaultRankConfig, exBadRow]),
    if_neg (by norm_num [defaultRankConfig, exBadRow]),
    if_neg (by norm_num [defaultRankConfig, noStockFlags, exBadRow])]
  simp only [noStockFlags]
  norm_num [score_rule, normalise_lift, clipQ, defaultRankConfig, exRecB, exBadRow, hqty,
    hl2B, hl3B, hl3Bp, hmemB]

/-- The association path on `exBasket` with the `in_stock` column absent. -/
theorem assocPathRows_noStock :
    assocPathRows defaultRankConfig noStockFlags exBasket exRankClusters exBadAssoc =
      [exRecB] := by
  have hdf : dfRows exBasket exRankClusters =
      [({ customer := "c1", product := "A", l2 := "L2A", l3 := "L3A",
          purchaseFrequency := 1, totalQuantity := 1, recencyDays := 0,
          inStock := "true", segment := "s" }, "k0")] := rfl
  have hstock : inStockIds noStockFlags.hasInStock exBasket = ["A", "B"] := rfl
  have hcust : sortedCustomers (dfRows exBasket exRankClusters) = ["c1"] := rfl
  have hfilt : List.filter (fun a => decide (a.cluster = "k0") && decide (a.segment = "s"))
      [exBadRow] = [exBadRow] := rfl
  have hcar : customerAssocRows defaultRankConfig noStockFlags exBasket
      (dfRows exBasket exRankClusters)
      (inStockIds noStockFlags.hasInStock exBasket) exBadAssoc "c1" = [exRecB] := by
    rw [customerAssocRows, hdf, hstock]
    norm_num [meanQ, exBadAssoc, hfilt, List.filterMap_cons, List.filterMap_nil,
      processRule_noStock]
  simp only [assocPathRows, hcust, List.flatMap_cons, List.flatMap_nil, hcar,
    List.append_nil]

/-- The fallback offers the out-of-stock product `B` to `c1` when every
product counts as in stock. -/
theorem fallback_noStock :
    category_aware_fallback defaultRankConfig noStockFlags (dfRows exBasket c9Clusters)
      exBasket ["c1"] ["A", "B"] (fun _ => []) = [c9FallRow] := by
  have haff : l2AffinityGet exBasket "c1" (prodL2Get noStockFlags.hasL2 exBasket "B" "") = 0 := by
    have hp : prodL2Get noStockFlags.hasL2 exBasket "B" "" = "L2B" := rfl
    have hm : custL2Mem exBasket "c1" "L2B" = false := rfl
    rw [hp]
    simp [l2AffinityGet, hm]
  have hfall1 : category_aware_fallback defaultRankConfig noStockFlags
      (dfRows exBasket c9Clusters) exBasket ["c1"] ["A", "B"] (fun _ => []) =
      [{ customer := "c1", product := "B", cluster := "k0", segment := "s",
         l2 := "L2B", l3 := "L3B", trigger := "fallback", support := 0,
         confidence := 0, lift := 0,
         score := 1/10 + l2AffinityGet exBasket "c1"
           (prodL2Get noStockFlags.hasL2 exBasket "B" ""),
         qty := 1 }] := rfl
  rw [hfall1, haff]
  norm_num [c9FallRow]

/-- C9, witness: with the column absent every basket product is in stock;
the association path recommends `B` (out of stock per the product table) and
the fallback path offers `B` as well — each recommendation lying in the
degenerate in-stock set. -/
theorem c9_no_stock_column_witness :
    (("B" : String) ∈ inStockIds false exBasket ↔
      ("B" : String) ∈ exBasket.map (fun r => r.product)) ∧
    (exRecB ∈ assocPathRows defaultRankConfig noStockFlags exBasket exRankClusters
        exBadAssoc ∧
      exRecB.product ∈ inStockIds noStockFlags.hasInStock exBasket) ∧
    (c9FallRow ∈ category_aware_fallback defaultRankConfig noStockFlags
        (dfRows exBasket c9Clusters) exBasket ["c1"] ["A", "B"] (fun _ => []) ∧
      c9FallRow.product ∈ (["A", "B"] : List String)) := by
  have hmem1 : exRecB ∈ assocPathRows defaultRankConfig noStockFlags exBasket
      exRankClusters exBadAssoc := by
    rw [assocPathRows_noStock]
    exact List.mem_cons_self _ _
  have hmem2 : c9FallRow ∈ category_aware_fallback defaultRankConfig noStockFlags
      (dfRows exBasket c9Clusters) exBasket ["c1"] ["A", "B"] (fun _ => []) := by
    rw [fallback_noStock]
    exact List.mem_cons_self _ _
  refine ⟨c9_no_stock_column.1 exBasket "B", ⟨hmem1, ?_⟩, ⟨hmem2, ?_⟩⟩
  · exact c9_no_stock_column.2.1 defaultRankConfig noStockFlags exBasket exRankClusters
      exBadAssoc exRecB hmem1
  · exact c9_no_stock_column.2.2 defaultRankConfig noStockFlags
      (dfRows exBasket c9Clusters) exBasket ["c1"] ["A", "B"] (fun _ => []) c9FallRow hmem2

/-! ## C8 — rank contiguity -/

/-- Strict counting: if `q` dominates `p` on `l` and some member satisfies
`q` but not `p`, the `q` count strictly exceeds the `p` count. -/
theorem countP_lt_of_mem {α : Type} {p q : α → Bool} {l : List α}
    (hmono : ∀ a ∈ l, p a = true → q a = true) {x : α} (hx : x ∈ l)
    (hqx : q x = true) (hpx : p x = false) :
    l.countP p < l.countP q := by
  induction l with
  | nil => cases hx
  | cons a t ih =>
    rw [List.countP_cons, List.countP_cons]
    have hle : t.countP p ≤ t.countP q :=
      List.countP_mono_left (fun b hb => hmono b (List.mem_cons_of_mem _ hb))
    rcases List.mem_cons.1 hx with rfl | hxt
    · rw [hqx, hpx]
      have h0 : (if (false = true) then 1 else 0) = 0 := rfl
      have h1 : (if (true = true) then 1 else 0) = 1 := rfl
      rw [h0, h1]
      omega
    · have hlt := ih (fun b hb => hmono b (List.mem_cons_of_mem _ hb)) hxt
      have hif : (if p a = true then 1 else 0) ≤ (if q a = true then 1 else 0) := by
        by_cases hpa : p a = true
        · rw [if_pos hpa, if_pos (hmono a (List.mem_cons_self a t) hpa)]
        · rw [if_neg hpa]
          omega
      omega

/-- The `rank(method="first")` counting formula assigns, over a list whose
elements are pairwise comparable by a strict order, exactly the ranks
1..length (as a permutation). -/
theorem rank_map_perm {β : Type} (lt : β → β → Prop) [DecidableRel lt] (l : List β)
    (hirr : ∀ x, ¬ lt x x)
    (htrans : ∀ a b c, lt a b → lt b c → lt a c)
    (htot : ∀ x ∈ l, ∀ y ∈ l, x ≠ y → lt x y ∨ lt y x)
    (hnd : l.Nodup) :
    (l.map (fun x => 1 + l.countP (fun y => decide (lt y x)))).Perm
      (List.range' 1 l.length) := by
  have hmonolt : ∀ x ∈ l, ∀ y ∈ l, lt x y →
      l.countP (fun z => decide (lt z x)) < l.countP (fun z => decide (lt z y)) := by
    intro x hx y hy hxy
    refine countP_lt_of_mem ?_ hx ?_ ?_
    · intro a _ ha
      rw [decide_eq_true_eq] at ha ⊢
      exact htrans a x y ha hxy
    · rw [decide_eq_true_eq]
      exact hxy
    · exact decide_eq_false (hirr x)
  have hinj : ∀ x ∈ l, ∀ y ∈ l,
      (1 + l.countP (fun z => decide (lt z x))) =
        (1 + l.countP (fun z => decide (lt z y))) → x = y := by
    intro x hx y hy heq
    by_contra hne
    rcases htot x hx y hy hne with h | h
    · have := hmonolt x hx y hy h
      omega
    · have := hmonolt y hy x hx h
      omega
  have hndmap : (l.map fun x => 1 + l.countP (fun y => decide (lt y x))).Nodup :=
    List.Nodup.map_on hinj hnd
  have hsub : (l.map fun x => 1 + l.countP (fun y => decide (lt y x))) ⊆
      List.range' 1 l.length := by
    intro v hv
    obtain ⟨x, hx, rfl⟩ := List.mem_map.1 hv
    rw [List.mem_range'_1]
    have hlt : l.countP (fun y => decide (lt y x)) < l.length := by
      have h1 : l.countP (fun y => decide (lt y x)) < l.countP (fun _ => true) :=
        countP_lt_of_mem (fun a _ _ => rfl) hx rfl (decide_eq_false (hirr x))
      have h2 : l.countP (fun _ => true) = l.length := by
        simp [List.countP_true]
      omega
    omega
  refine (List.subperm_of_subset hndmap hsub).perm_of_length_le ?_
  rw [List.length_range', List.length_map]

/-- Keeping the ranks up to `K` of the contiguous range 1..n leaves the
contiguous range 1..min n K. -/
theorem filter_range'_le (K : ℕ) : ∀ n : ℕ,
    (List.range' 1 n).filter (fun m => decide (m ≤ K)) = List.range' 1 (min n K) := by
  intro n
  induction n with
  | zero => simp
  | succ m ih =>
    rw [List.range'_concat, List.filter_append, ih]
    simp only [one_mul]
    by_cases h : 1 + m ≤ K
    · have h1 : min (m + 1) K = min m K + 1 := by omega
      have h2 : min m K = m := by omega
      rw [h1, h2, List.range'_concat]
      simp [h]
    · have h1 : min (m + 1) K = min m K := by omega
      rw [h1]
      simp [h]

set_option maxHeartbeats 1000000 in
/-- Per customer, the ranked-and-capped output carries exactly the ranks
1..min(available, K). -/
theorem rankAndCap_customer_perm {α : Type} (cust : α → String) (score : α → ℚ)
    (rows : List α) (K : ℕ) (c : String) :
    (((rankAndCap cust score rows K).filter (fun p => decide (cust p.1 = c))).map
        Prod.snd).Perm
      (List.range' 1 (min ((rows.filter (fun r => decide (cust r = c))).length) K)) := by
  classical
  set e := rows.enum with he
  set rank : ℕ × α → ℕ := fun x => 1 + e.countP (fun y =>
    decide (cust y.2 = cust x.2 ∧
      (score x.2 < score y.2 ∨ (score y.2 = score x.2 ∧ y.1 < x.1)))) with hrank
  set S := e.filter (fun x => decide (cust x.2 = c)) with hS
  -- Step A: reshape the left-hand list into (S.map rank).filter (≤ K)
  have hA : ((rankAndCap cust score rows K).filter
      (fun p => decide (cust p.1 = c))).map Prod.snd =
      ((S.map rank).filter (fun v => decide (v ≤ K))) := by
    have h0 : (rankAndCap cust score rows K).filter (fun p => decide (cust p.1 = c)) =
        ((e.map (fun x => (x.2, rank x))).filter (fun p => decide (p.2 ≤ K))).filter
          (fun p => decide (cust p.1 = c)) := rfl
    rw [h0, List.filter_filter, List.filter_map, List.map_map, List.filter_map]
    congr 1
    rw [hS, List.filter_filter]
    apply List.filter_congr
    intro x _
    exact Bool.and_comm (decide (cust x.2 = c)) (decide (rank x ≤ K))
  -- Step B: on S the rank formula restricts to S
  have hmemc : ∀ x ∈ S, cust x.2 = c := by
    intro x hx
    have := (List.mem_filter.1 hx).2
    rwa [decide_eq_true_eq] at this
  have hB : ∀ x ∈ S, rank x = 1 + S.countP (fun y =>
      decide (score x.2 < score y.2 ∨ (score y.2 = score x.2 ∧ y.1 < x.1))) := by
    intro x hx
    have hc := hmemc x hx
    have key : e.countP (fun y => decide (cust y.2 = cust x.2 ∧
        (score x.2 < score y.2 ∨ (score y.2 = score x.2 ∧ y.1 < x.1)))) =
        S.countP (fun y =>
          decide (score x.2 < score y.2 ∨ (score y.2 = score x.2 ∧ y.1 < x.1))) := by
      rw [hc, hS, List.countP_filter]
      apply List.countP_congr
      intro y _
      simp only [decide_eq_true_eq, Bool.and_eq_true]
      constructor
      · rintro ⟨h1, h2⟩
        exact ⟨h2, h1⟩
      · rintro ⟨h1, h2⟩
        exact ⟨h2, h1⟩
    calc rank x = 1 + e.countP (fun y => decide (cust y.2 = cust x.2 ∧
          (score x.2 < score y.2 ∨ (score y.2 = score x.2 ∧ y.1 < x.1)))) := rfl
      _ = 1 + S.countP (fun y =>
          decide (score x.2 < score y.2 ∨ (score y.2 = score x.2 ∧ y.1 < x.1))) := by
          rw [key]
  -- Step C: the restricted ranks are a permutation of 1..|S|
  have hnde : e.Nodup := List.Nodup.of_map Prod.fst
    (by rw [List.enum_map_fst]; exact List.nodup_range _)
  have hfstinj : ∀ x ∈ e, ∀ y ∈ e, x.1 = y.1 → x = y := by
    intro x hx y hy hxy
    exact List.inj_on_of_nodup_map
      (by rw [List.enum_map_fst]; exact List.nodup_range _) hx hy hxy
  have hndS : S.Nodup := List.Nodup.filter _ hnde
  have hC : ((S.map (fun x => 1 + S.countP (fun y =>
      decide (score x.2 < score y.2 ∨ (score y.2 = score x.2 ∧ y.1 < x.1))))).Perm
        (List.range' 1 S.length)) := by
    refine rank_map_perm
      (fun y x => score x.2 < score y.2 ∨ (score y.2 = score x.2 ∧ y.1 < x.1)) S
      ?_ ?_ ?_ hndS
    · rintro x (h | ⟨-, h⟩)
      · exact lt_irrefl _ h
      · exact Nat.lt_irrefl _ h
    · rintro a b z (h1 | ⟨h1e, h1i⟩) (h2 | ⟨h2e, h2i⟩)
      · exact Or.inl (h2.trans h1)
      · exact Or.inl (h2e ▸ h1)
      · exact Or.inl (h1e ▸ h2)
      · exact Or.inr ⟨h1e.trans h2e, h1i.trans h2i⟩
    · intro x hx y hy hne
      rcases lt_trichotomy (score x.2) (score y.2) with h | h | h
      · exact Or.inr (Or.inl h)
      · have hidx : x.1 ≠ y.1 := by
          intro hxy
          exact hne (hfstinj x (List.mem_of_mem_filter hx) y
            (List.mem_of_mem_filter hy) hxy)
        rcases Nat.lt_or_ge x.1 y.1 with hi | hi
        · exact Or.inl (Or.inr ⟨h, hi⟩)
        · exact Or.inr (Or.inr ⟨h.symm, lt_of_le_of_ne hi (Ne.symm hidx)⟩)
      · exact Or.inl (Or.inl h)
  -- Step D/E: assemble
  have hSlen : S.length = (rows.filter (fun r => decide (cust r = c))).length := by
    rw [hS, ← List.countP_eq_length_filter, ← List.countP_eq_length_filter]
    have h1 : (fun x : ℕ × α => decide (cust x.2 = c)) =
        ((fun r => decide (cust r = c)) ∘ Prod.snd) := rfl
    rw [h1, ← List.countP_map, List.enum_map_snd]
  rw [hA, List.map_congr_left hB]
  refine (hC.filter (fun v => decide (v ≤ K))).trans ?_
  rw [filter_range'_le K S.length, hSlen]

/-- C8.  In both the ranking stage's output and the feedback-calibration
stage's output, every customer's rank values are exactly 1..N for some
N ≤ TOP_K: contiguous from 1, no gaps, no ties. -/
theorem c8_rank_contiguity :
    (∀ (cfg : RankConfig) (flags : RankingFlags) (basket : List BasketRow)
       (cls : List ClusterRow) (assoc : List AssocRow) (c : String),
       ∃ N, N ≤ cfg.topK ∧
         (((ranking_main cfg flags basket cls assoc).filter
             (fun p => decide (p.1.customer = c))).map Prod.snd).Perm
           (List.range' 1 N)) ∧
    (∀ (cfg : FeedbackConfig) (hD hR hS : Bool) (reco : List (RecRow × ℕ))
       (fb : List FeedbackRow) (c : String),
       ∃ N, N ≤ cfg.topK ∧
         (((apply_calibration cfg hD hR hS reco fb).filter
             (fun p => decide (p.1.customer = c))).map Prod.snd).Perm
           (List.range' 1 N)) := by
  constructor
  · intro cfg flags basket cls assoc c
    refine ⟨min (((rankingPreRank cfg flags basket cls assoc).filter
      (fun r => decide (r.customer = c))).length) cfg.topK, min_le_right _ _, ?_⟩
    have hperm : (ranking_main cfg flags basket cls assoc).Perm
        (rankAndCap (fun r : RecRow => r.customer) (fun r => r.score)
          (rankingPreRank cfg flags basket cls assoc) cfg.topK) :=
      sortB_perm _ _
    exact ((hperm.filter _).map Prod.snd).trans
      (rankAndCap_customer_perm (fun r : RecRow => r.customer) (fun r => r.score)
        (rankingPreRank cfg flags basket cls assoc) cfg.topK c)
  · intro cfg hD hR hS reco fb c
    refine ⟨_, min_le_right _ _,
      rankAndCap_customer_perm (fun r : RecRow => r.customer) (fun r => r.score) _
        cfg.topK c⟩

end IPRE
